import Mathlib

/-!
Shallow embedding of the core session engine of the DOTHEGI reaction game
(src/src/main.ts, class WhackGame and its helpers).  JS numbers are modelled
as rationals, JS Math.random() as an injectable stream of rationals in [0,1)
consumed in source call order.  Purely presentational state (status text,
HUD, sprites, audio, canvas geometry, persisted profile) is omitted; every
field and function that takes part in game logic is embedded faithfully.
-/

namespace DTG

set_option maxRecDepth 4000000
set_option maxHeartbeats 1600000

/-! ## Numeric helpers (src/main.ts lines 182-202) -/

/-- clamp(value, min, max) = Math.min(max, Math.max(min, value)). -/
def clamp (value lo hi : ℚ) : ℚ := min hi (max lo value)

/-- lerp(from, to, t) with t clamped to [0,1]. -/
def lerp (a b t : ℚ) : ℚ := a + (b - a) * clamp t 0 1

/-- smoothstep(t) = x*x*(3-2x) on the clamped x. -/
def smoothstep (t : ℚ) : ℚ :=
  let x := clamp t 0 1
  x * x * (3 - 2 * x)

/-- randomBetween(min, max) = min + r*(max-min), r the Math.random() draw. -/
def randomBetween (lo hi r : ℚ) : ℚ := lo + r * (hi - lo)

/-- randomInt(min, max) = Math.floor(randomBetween(min, max+1)). -/
def randomInt (lo hi : ℤ) (r : ℚ) : ℤ :=
  ⌊randomBetween (lo : ℚ) ((hi : ℚ) + 1) r⌋

/-- JS Math.round: round half toward +infinity. -/
def jsRound (x : ℚ) : ℤ := ⌊x + 1/2⌋

/-! ## Game constants (src/main.ts lines 111-170) -/

def START_TIME_MS : ℚ := 45000
def MAX_TIME_MS : ℚ := 120000
def CHECKPOINT_MS : ℚ := 5000
def CELL_COOLDOWN_MS : ℚ := 900
def PROMOTION_PENDING_MS : ℚ := 1500
def STAGE1_PROMOTION_PENDING_MS : ℚ := 1200
def PROMOTION_GRACE_BASE_MS : ℚ := 3000
def STAGE_TRANSITION_NOTICE_MS : ℚ := 1800

/-- STAGE_START_TIME_MS[level] ?? START_TIME_MS. -/
def STAGE_START_TIME_MS (level : ℕ) : ℚ :=
  match level with
  | 2 => 45000
  | 3 => 43000
  | 4 => 41000
  | 5 => 39000
  | 6 => 37000
  | 7 => 35000
  | _ => START_TIME_MS

/-- LEVEL_ENTRY_EASE_MS[level] ?? 0. -/
def LEVEL_ENTRY_EASE_MS (level : ℕ) : ℚ :=
  match level with
  | 2 => 14000
  | 3 => 10000
  | 4 => 8000
  | 5 => 7000
  | 6 => 6000
  | 7 => 5000
  | _ => 0

/-- PROMOTION_GRACE_MS_BY_LEVEL[level] ?? PROMOTION_GRACE_BASE_MS. -/
def PROMOTION_GRACE_MS_BY_LEVEL (level : ℕ) : ℚ :=
  match level with
  | 2 => 8000
  | 3 => 5000
  | _ => PROMOTION_GRACE_BASE_MS

structure LevelConfig where
  grid : ℕ
  concurrentMin : ℚ
  concurrentMax : ℚ
  spawnIntervalMs : ℚ
  holdMinMs : ℚ
  holdMaxMs : ℚ
  deriving Repr, DecidableEq

/-- LEVEL_CONFIGS table.  The source indexes it only with a level already
clamped to 1..7; out-of-range keys (never reached) fall back to level 1. -/
def LEVEL_CONFIGS (level : ℕ) : LevelConfig :=
  match level with
  | 2 => ⟨4, 1, 2, 820, 930, 1080⟩
  | 3 => ⟨5, 1, 2, 760, 860, 980⟩
  | 4 => ⟨6, 2, 2, 700, 780, 900⟩
  | 5 => ⟨7, 2, 3, 640, 720, 820⟩
  | 6 => ⟨8, 2, 3, 580, 660, 760⟩
  | 7 => ⟨9, 3, 3, 520, 620, 700⟩
  | _ => ⟨3, 1, 1, 980, 1200, 1450⟩

/-- MIN_HITS_TO_LEVEL_UP table (level 7 uses Number.MAX_SAFE_INTEGER). -/
def MIN_HITS_TO_LEVEL_UP (level : ℕ) : ℕ :=
  match level with
  | 1 => 3
  | 2 => 4
  | 3 => 5
  | 4 => 6
  | 5 => 7
  | 6 => 8
  | _ => 9007199254740991

/-! ## Core data model -/

inductive MoleType where
  | normal | gold | bomb | ice
  deriving Repr, DecidableEq

inductive MolePhase where
  | pop | idle | hit | retreat
  deriving Repr, DecidableEq

inductive PromotionState where
  | noneSt | pending | grace
  deriving Repr, DecidableEq

/-- A grid cell.  The source also stores canvas geometry (cx, cy, hole and
mole pixel sizes); only index, row and col take part in game logic. -/
structure Cell where
  index : ℕ
  row : ℕ
  col : ℕ
  deriving Repr, DecidableEq

/-- An active target.  appearanceSprite (a purely visual override) is
omitted; with no custom sprites loaded the source stores null there and
draws no randomness for it. -/
structure ActiveMole where
  id : ℕ
  cellIndex : ℕ
  type : MoleType
  phase : MolePhase
  phaseElapsedMs : ℚ
  spawnedAtMs : ℚ
  popDurationMs : ℚ
  idleDurationMs : ℚ
  hitDurationMs : ℚ
  retreatDurationMs : ℚ
  wasHit : Bool
  deriving Repr, DecidableEq

structure IntervalStats where
  hits : ℕ
  misses : ℕ
  reactionTotalMs : ℚ
  reactionCount : ℕ
  deriving Repr, DecidableEq

structure DifficultyProfile where
  grid : ℕ
  spawnIntervalMs : ℚ
  holdMinMs : ℚ
  holdMaxMs : ℚ
  concurrentMin : ℤ
  concurrentMax : ℤ
  deriving Repr, DecidableEq

/-- The mutable match state of WhackGame (core fields only). -/
structure GameState where
  level : ℕ
  score : ℤ
  combo : ℕ
  bestCombo : ℕ
  timeRemainingMs : ℚ
  tierProgress : ℚ
  skillEMA : ℚ
  promotionState : PromotionState
  promotionTargetLevel : Option ℕ
  promotionElapsedMs : ℚ
  levelEaseFromLevel : Option ℕ
  levelEaseElapsedMs : ℚ
  levelEaseDurationMs : ℚ
  stageTransitionLockMs : ℚ
  stageFloorLevel : ℕ
  lowPiStreak : ℕ
  elapsedMs : ℚ
  nextCheckpointAtMs : ℚ
  nextSpawnAtMs : ℚ
  activeMoles : List ActiveMole
  recentCellIndices : List ℕ
  cellCooldownUntil : List ℚ
  moleSerial : ℕ
  slowUntilMs : ℚ
  intervalStats : IntervalStats
  sessionHits : ℕ
  sessionMisses : ℕ
  isRunning : Bool
  isPaused : Bool
  isGameOver : Bool
  cells : List Cell
  rng : List ℚ
  deriving Repr, DecidableEq

/-- clamp on integers (the source applies its numeric clamp to values that
are integral at that point). -/
def clampZ (v lo hi : ℤ) : ℤ := min hi (max lo v)

/-- Cell layout of refreshCells: a grid x grid board filled row-major with
index = row*grid + col (geometry fields dropped). -/
def mkCells (grid : ℕ) : List Cell :=
  (List.range (grid * grid)).map (fun i => ⟨i, i / grid, i % grid⟩)

/-- getSlowFactor (main.ts 1222-1224). -/
def getSlowFactor (s : GameState) : ℚ :=
  if s.elapsedMs < s.slowUntilMs then 1.35 else 1

def getPendingDurationMs (s : GameState) : ℚ :=
  if s.level = 1 then STAGE1_PROMOTION_PENDING_MS else PROMOTION_PENDING_MS

def getPromotionGraceDurationMs (s : GameState) : ℚ :=
  PROMOTION_GRACE_MS_BY_LEVEL s.level

/-- getLevelEntryEaseRatio (main.ts 1544-1549). -/
def getLevelEntryEaseRatio (s : GameState) : ℚ :=
  match s.levelEaseFromLevel with
  | Option.none => 1
  | Option.some _ =>
    if s.levelEaseDurationMs ≤ 0 then 1
    else clamp (s.levelEaseElapsedMs / s.levelEaseDurationMs) 0 1

/-- getTierBlendToNext (main.ts 1396-1417). -/
def getTierBlendToNext (s : GameState) : ℚ :=
  let progressBlend := clamp (s.tierProgress / 100) 0 1
  let blend := progressBlend
  let blend := if s.level = 1 then
      (if progressBlend < 0.8 then progressBlend * 0.45
       else 0.36 + (progressBlend - 0.8) * 1.2)
    else blend
  let blend := if s.promotionState = PromotionState.pending then
      max blend (clamp (s.promotionElapsedMs / getPendingDurationMs s) 0 1 * 0.85)
    else blend
  let blend := if s.promotionState = PromotionState.grace then
      min blend (0.35 + (1 - clamp (s.promotionElapsedMs / getPromotionGraceDurationMs s) 0 1) * 0.15)
    else blend
  clamp blend 0 1

/-- getDifficultyProfile (main.ts 1346-1394). -/
def getDifficultyProfile (s : GameState) : DifficultyProfile :=
  let current := LEVEL_CONFIGS s.level
  let nextLevel := min 7 (s.level + 1)
  let next := LEVEL_CONFIGS nextLevel
  let blendToNext := if s.level = 7 then 0 else getTierBlendToNext s
  let spawnIntervalMs := lerp current.spawnIntervalMs next.spawnIntervalMs blendToNext
  let holdMinMs := lerp current.holdMinMs next.holdMinMs blendToNext
  let holdMaxMs := lerp current.holdMaxMs next.holdMaxMs blendToNext
  let concurrentMax : ℤ := jsRound (lerp current.concurrentMax next.concurrentMax blendToNext)
  let concurrentMin : ℤ := jsRound (lerp current.concurrentMin next.concurrentMin (blendToNext * 0.7))
  -- level 1 keeps one concurrent target to soften the difficulty jump
  let concurrentMin : ℤ := if s.level = 1 then 1 else concurrentMin
  let concurrentMax : ℤ := if s.level = 1 then 1 else concurrentMax
  let levelEntryEaseRatio := getLevelEntryEaseRatio s
  let adj :=
    match s.levelEaseFromLevel with
    | Option.some fromLv =>
      if levelEntryEaseRatio < 1 then
        let entryFrom := LEVEL_CONFIGS fromLv
        let ease := smoothstep levelEntryEaseRatio
        (lerp entryFrom.spawnIntervalMs spawnIntervalMs ease,
         lerp entryFrom.holdMinMs holdMinMs ease,
         lerp entryFrom.holdMaxMs holdMaxMs ease,
         jsRound (lerp entryFrom.concurrentMin (concurrentMin : ℚ) (ease * 0.82)),
         jsRound (lerp entryFrom.concurrentMax (concurrentMax : ℚ) (ease * 0.82)))
      else (spawnIntervalMs, holdMinMs, holdMaxMs, concurrentMin, concurrentMax)
    | Option.none => (spawnIntervalMs, holdMinMs, holdMaxMs, concurrentMin, concurrentMax)
  let adj2 :=
    if s.promotionState = PromotionState.grace then
      (adj.1 * 1.08, adj.2.1 * 1.12, adj.2.2.1 * 1.12, max 1 (adj.2.2.2.2 - 1))
    else (adj.1, adj.2.1, adj.2.2.1, adj.2.2.2.2)
  let concurrentMin := clampZ adj.2.2.2.1 1 3
  let concurrentMax := clampZ adj2.2.2.2 concurrentMin 3
  { grid := current.grid
    spawnIntervalMs := adj2.1
    holdMinMs := adj2.2.1
    holdMaxMs := adj2.2.2.1
    concurrentMin := concurrentMin
    concurrentMax := concurrentMax }

/-! ## Unlocked spawn subset during level-entry easing (main.ts 1306-1344) -/

/-- Manhattan distance from the grid center used to rank cells. -/
def cellDistance (grid : ℕ) (c : Cell) : ℚ :=
  let center : ℚ := ((grid : ℚ) - 1) / 2
  |(c.row : ℚ) - center| + |(c.col : ℚ) - center|

/-- Tie-break hash ((row * 73856093) ^ (col * 19349663)) >>> 0; for grids up
to 9x9 the xor stays below 2^31 so the unsigned shift is the identity. -/
def cellHash (c : Cell) : ℕ := Nat.xor (c.row * 73856093) (c.col * 19349663)

/-- The sort comparator of getUnlockedSpawnCellSet: ascending distance,
ties broken by ascending hash. -/
def cellRankLt (grid : ℕ) (a b : Cell) : Bool :=
  cellDistance grid a < cellDistance grid b ∨
    (cellDistance grid a = cellDistance grid b ∧ cellHash a < cellHash b)

def insertRanked (grid : ℕ) (c : Cell) : List Cell → List Cell
  | [] => [c]
  | d :: rest =>
    if cellRankLt grid d c then d :: insertRanked grid c rest
    else c :: d :: rest

/-- Sort cells by the comparator (the comparator is a strict total order on
distinct grid positions, so this matches the JS Array.sort result). -/
def rankCells (grid : ℕ) : List Cell → List Cell
  | [] => []
  | c :: rest => insertRanked grid c (rankCells grid rest)

/-- getUnlockedSpawnCellSet: while level-entry easing is active, the
center-out subset of cells the spawner may use (none = no restriction). -/
def getUnlockedSpawnCellSet (s : GameState) : Option (List ℕ) :=
  match s.levelEaseFromLevel with
  | Option.none => Option.none
  | Option.some fromLv =>
    if s.levelEaseDurationMs ≤ 0 ∨ s.cells.length = 0 ∨ s.level ≤ fromLv then
      Option.none
    else
      let fromGrid := (LEVEL_CONFIGS fromLv).grid
      let currentGrid := (LEVEL_CONFIGS s.level).grid
      if currentGrid ≤ fromGrid then Option.none
      else
        let easeRatio := getLevelEntryEaseRatio s
        if 0.999 ≤ easeRatio then Option.none
        else
          let totalCells := s.cells.length
          let startCells := clampZ ((fromGrid * fromGrid : ℕ) : ℤ) 1 (totalCells : ℤ)
          let unlockedCells := clampZ
            (jsRound (lerp (startCells : ℚ) (totalCells : ℚ) (smoothstep easeRatio)))
            1 (totalCells : ℤ)
          Option.some (((rankCells currentGrid s.cells).take unlockedCells.toNat).map Cell.index)

/-! ## Category lottery (main.ts 264-274 and 1419-1477) -/

/-- Start-of-tier weight table (normal, gold, bomb, ice); unknown levels
fall back to level 1 via the ?? in the source. -/
def startWeights (level : ℕ) : ℚ × ℚ × ℚ × ℚ :=
  match level with
  | 2 => (82, 11, 7, 0)
  | 3 => (78, 12, 9, 1)
  | 4 => (74, 13, 11, 2)
  | 5 => (71, 14, 12, 3)
  | 6 => (68, 14, 14, 4)
  | 7 => (66, 14, 15, 5)
  | _ => (94, 5, 1, 0)

/-- End-of-tier weight table (normal, gold, bomb, ice). -/
def endWeights (level : ℕ) : ℚ × ℚ × ℚ × ℚ :=
  match level with
  | 2 => (76, 13, 10, 1)
  | 3 => (72, 13, 12, 3)
  | 4 => (68, 14, 14, 4)
  | 5 => (65, 15, 15, 5)
  | 6 => (62, 15, 17, 6)
  | 7 => (60, 16, 18, 6)
  | _ => (89, 8, 3, 0)

def pickWeightedTypeGo (roll : ℚ) : List (MoleType × ℚ) → MoleType
  | [] => MoleType.normal
  | (t, w) :: rest =>
    if roll - w ≤ 0 then t
    else
      match rest with
      | [] => t
      | _ :: _ => pickWeightedTypeGo (roll - w) rest

/-- pickWeightedType: cumulative-weight roll over the list, falling back to
the last entry (the empty-list case is unreachable). -/
def pickWeightedType (weights : List (MoleType × ℚ)) (r : ℚ) : MoleType :=
  let total := weights.foldl (fun acc p => acc + p.2) 0
  pickWeightedTypeGo (r * total) weights

/-- The four adjusted category weights computed by pickMoleType just before
the lottery roll (main.ts 1439-1469), in order (normal, gold, bomb, ice). -/
def pickMoleTypeWeights (s : GameState) : ℚ × ℚ × ℚ × ℚ :=
  let blend := getTierBlendToNext s
  let sw := startWeights s.level
  let ew := endWeights s.level
  let normal := lerp sw.1 ew.1 blend
  let gold := lerp sw.2.1 ew.2.1 blend
  let bomb := lerp sw.2.2.1 ew.2.2.1 blend
  let ice := lerp sw.2.2.2 ew.2.2.2 blend
  let levelEntryEaseRatio := getLevelEntryEaseRatio s
  let adj :=
    match s.levelEaseFromLevel with
    | Option.some _ =>
      if levelEntryEaseRatio < 1 then
        let safety := 1 - smoothstep levelEntryEaseRatio
        (normal + 8 * safety, gold * (1 - 0.16 * safety),
         bomb * (1 - 0.78 * safety), ice * (1 - 0.72 * safety))
      else (normal, gold, bomb, ice)
    | Option.none => (normal, gold, bomb, ice)
  let graceAdj :=
    if s.promotionState = PromotionState.grace then
      (adj.1 + 6, adj.2.2.1 * 0.25, adj.2.2.2 * 0.5)
    else (adj.1, adj.2.2.1, adj.2.2.2)
  let timeAdj :=
    if s.timeRemainingMs ≤ 9000 then (adj.2.1 * 1.12, graceAdj.2.1 * 1.05)
    else (adj.2.1, graceAdj.2.1)
  (max 1 graceAdj.1, max 0.5 timeAdj.1, max 0.2 timeAdj.2, max 0 graceAdj.2.2)

/-- pickMoleType: compute adjusted weights, then draw by weighted lottery.
The single Math.random() roll it consumes is passed in explicitly. -/
def pickMoleType (s : GameState) (r : ℚ) : MoleType :=
  let w := pickMoleTypeWeights s
  pickWeightedType
    [(MoleType.normal, w.1), (MoleType.gold, w.2.1),
     (MoleType.bomb, w.2.2.1), (MoleType.ice, w.2.2.2)] r

/-! ## Spawning (main.ts 1204-1304) -/

/-- The exposed-duration scale applied in spawnSingleMole (main.ts
1270-1279): 0.76 for gold, 0.9 for ice, then x1.2 while slow is active. -/
def idleScaleFor (t : MoleType) (slowFactor : ℚ) : ℚ :=
  let base : ℚ := if t = MoleType.gold then 0.76 else if t = MoleType.ice then 0.9 else 1
  if slowFactor > 1 then base * 1.2 else base

/-- The cascading-relaxation candidate pipeline of spawnSingleMole
(main.ts 1227-1257), returning candidate cell indices. -/
def spawnCandidates (s : GameState) : List ℕ :=
  let occupied := s.activeMoles.map (fun m => m.cellIndex)
  let desiredRecentAvoid := s.recentCellIndices.drop (s.recentCellIndices.length - 3)
  let unlockedCellSet := getUnlockedSpawnCellSet s
  let isUnlocked : Cell → Bool := fun c =>
    match unlockedCellSet with
    | Option.none => true
    | Option.some l => c.index ∈ l
  let free : Cell → Bool := fun c => decide (¬ c.index ∈ occupied)
  let cooled : Cell → Bool := fun c => decide (s.cellCooldownUntil.getD c.index 0 ≤ s.elapsedMs)
  let notRecent : Cell → Bool := fun c => decide (¬ c.index ∈ desiredRecentAvoid)
  let candidates :=
    ((((s.cells.filter isUnlocked).filter free).filter cooled).filter notRecent).map Cell.index
  let candidates :=
    if candidates = [] then
      (((s.cells.filter isUnlocked).filter free).filter cooled).map Cell.index
    else candidates
  let candidates :=
    if candidates = [] then
      ((s.cells.filter isUnlocked).filter free).map Cell.index
    else candidates
  let candidates :=
    if candidates = [] ∧ unlockedCellSet ≠ Option.none then
      ((s.cells.filter free).filter cooled).map Cell.index
    else candidates
  let candidates :=
    if candidates = [] ∧ unlockedCellSet ≠ Option.none then
      (s.cells.filter free).map Cell.index
    else candidates
  candidates

/-- spawnSingleMole (main.ts 1226-1304).  Returns (didSpawn, new state). -/
def spawnSingleMole (profile : DifficultyProfile) (s : GameState) : Bool × GameState :=
  let candidates := spawnCandidates s
  if candidates = [] then (false, s)
  else
    let concurrencyFloor := profile.concurrentMin
    -- the source draws its six Math.random() values in the order cell slot,
    -- category roll, pop, idle, hit, retreat; here they are the stream
    -- entries 0..5 (0 beyond the end of the stream) and the tail is dropped.
    let nsa := if (s.activeMoles.length : ℤ) < concurrencyFloor - 1 then s.elapsedMs
      else s.nextSpawnAtMs
    let cellIndex :=
      candidates.getD (randomInt 0 ((candidates.length : ℤ) - 1) (s.rng.getD 0 0)).toNat 0
    let type := pickMoleType s (s.rng.getD 1 0)
    let idleScale := idleScaleFor type (getSlowFactor s)
    let newMole : ActiveMole :=
      { id := s.moleSerial
        cellIndex := cellIndex
        type := type
        phase := MolePhase.pop
        phaseElapsedMs := 0
        spawnedAtMs := s.elapsedMs
        popDurationMs := randomBetween 120 170 (s.rng.getD 2 0)
        idleDurationMs :=
          randomBetween profile.holdMinMs profile.holdMaxMs (s.rng.getD 3 0) * idleScale
        hitDurationMs := randomBetween 130 180 (s.rng.getD 4 0)
        retreatDurationMs := randomBetween 100 150 (s.rng.getD 5 0)
        wasHit := false }
    let recent := s.recentCellIndices ++ [cellIndex]
    let recent := if recent.length > 6 then recent.drop 1 else recent
    (true,
      { s with
        nextSpawnAtMs := nsa
        rng := s.rng.drop 6
        moleSerial := s.moleSerial + 1
        activeMoles := s.activeMoles ++ [newMole]
        cellCooldownUntil := s.cellCooldownUntil.set cellIndex (s.elapsedMs + CELL_COOLDOWN_MS)
        recentCellIndices := recent })

/-- The while loop of spawnMolesIfNeeded (main.ts 1210-1219), with explicit
fuel.  Every iteration that loops again has appended one mole and the loop
guard needs the count below concurrentMax, so concurrentMax+1 units of fuel
are never exhausted before the guard fails. -/
def spawnLoop (profile : DifficultyProfile) : ℕ → GameState → GameState
  | 0, s => s
  | fuel + 1, s =>
    if s.nextSpawnAtMs ≤ s.elapsedMs ∧ (s.activeMoles.length : ℤ) < profile.concurrentMax then
      let bs := spawnSingleMole profile s
      if bs.1 then
        let slowFactor := getSlowFactor bs.2
        let nextInterval :=
          randomBetween (profile.spawnIntervalMs * 0.88) (profile.spawnIntervalMs * 1.12)
            (bs.2.rng.headD 0) * slowFactor
        spawnLoop profile fuel
          { bs.2 with nextSpawnAtMs := bs.2.nextSpawnAtMs + nextInterval, rng := bs.2.rng.tail }
      else { bs.2 with nextSpawnAtMs := bs.2.elapsedMs + 120 }
    else s

/-- spawnMolesIfNeeded (main.ts 1204-1220). -/
def spawnMolesIfNeeded (s : GameState) : GameState :=
  if s.cells.length = 0 then s
  else
    let profile := getDifficultyProfile s
    spawnLoop profile (profile.concurrentMax.toNat + 1) s

/-! ## Target lifecycle and scoring (main.ts 1172-1202, 1747-1879) -/

/-- One target's step inside updateMoles: add the delta to the phase clock,
then make at most one phase transition.  Returns the surviving target (none
when the retreat phase ended) and whether an implicit miss was reported. -/
def updateMole1 (deltaMs : ℚ) (m : ActiveMole) : Option ActiveMole × Bool :=
  let m := { m with phaseElapsedMs := m.phaseElapsedMs + deltaMs }
  if m.phase = MolePhase.pop ∧ m.popDurationMs ≤ m.phaseElapsedMs then
    (Option.some { m with phase := MolePhase.idle, phaseElapsedMs := 0 }, false)
  else if m.phase = MolePhase.idle ∧ m.idleDurationMs ≤ m.phaseElapsedMs then
    (Option.some { m with phase := MolePhase.retreat, phaseElapsedMs := 0 }, ¬ m.wasHit)
  else if m.phase = MolePhase.hit ∧ m.hitDurationMs ≤ m.phaseElapsedMs then
    (Option.some { m with phase := MolePhase.retreat, phaseElapsedMs := 0 }, false)
  else if m.phase = MolePhase.retreat ∧ m.retreatDurationMs ≤ m.phaseElapsedMs then
    (Option.none, false)
  else (Option.some m, false)

/-- registerMiss (main.ts 1858-1866); the fromTimeout flag only selects a
sound effect. -/
def registerMiss (s : GameState) (fromTimeout : Bool) : GameState :=
  let _ := fromTimeout
  { s with
    combo := 0
    intervalStats := { s.intervalStats with misses := s.intervalStats.misses + 1 }
    sessionMisses := s.sessionMisses + 1 }

def applyMisses : ℕ → GameState → GameState
  | 0, s => s
  | n + 1, s => applyMisses n (registerMiss s true)

/-- updateMoles (main.ts 1172-1202): advance every target and register one
implicit miss per unstruck target whose exposed phase just ended. -/
def updateMoles (deltaMs : ℚ) (s : GameState) : GameState :=
  let results := s.activeMoles.map (updateMole1 deltaMs)
  let moles := results.filterMap Prod.fst
  let missCount := (results.filter (fun p => p.2 = true)).length
  applyMisses missCount { s with activeMoles := moles }

/-- getComboMultiplier (main.ts 1868-1879). -/
def getComboMultiplier (combo : ℕ) : ℚ :=
  if combo ≥ 15 then 2
  else if combo ≥ 10 then 1.5
  else if combo ≥ 5 then 1.2
  else 1

/-- registerHit (main.ts 1797-1856), addressed by target identity (the
pointer hit-test that produces the target reference is presentation). -/
def registerHit (s : GameState) (moleId : ℕ) : GameState :=
  match s.activeMoles.findIdx? (fun m => m.id == moleId) with
  | Option.none => s
  | Option.some idx =>
    match s.activeMoles.get? idx with
    | Option.none => s
    | Option.some m =>
      if ¬ (m.phase = MolePhase.pop ∨ m.phase = MolePhase.idle) then s
      else
        let hitMole := { m with phase := MolePhase.hit, phaseElapsedMs := 0, wasHit := true }
        let scoreDelta : ℚ :=
          if m.type = MoleType.gold then 3
          else if m.type = MoleType.bomb then -3
          else 1
        let timeDeltaMs : ℚ := if m.type = MoleType.bomb then -2000 else 0
        -- the source zeroes the combo for a bomb, then computes nextCombo from
        -- the current combo and applies the multiplier of the updated combo
        let nextCombo := if m.type = MoleType.bomb then 0 else s.combo + 1
        let multiplier := if scoreDelta > 0 then getComboMultiplier nextCombo else 1
        let reaction := max 0 (s.elapsedMs - m.spawnedAtMs)
        { s with
          activeMoles := s.activeMoles.set idx hitMole
          slowUntilMs :=
            if m.type = MoleType.ice then max s.slowUntilMs (s.elapsedMs + 2000)
            else s.slowUntilMs
          combo := nextCombo
          bestCombo := max s.bestCombo nextCombo
          score := max 0 (s.score + jsRound (scoreDelta * multiplier))
          timeRemainingMs := clamp (s.timeRemainingMs + timeDeltaMs) 0 MAX_TIME_MS
          intervalStats :=
            { hits := s.intervalStats.hits + 1
              misses := s.intervalStats.misses
              reactionTotalMs := s.intervalStats.reactionTotalMs + reaction
              reactionCount := s.intervalStats.reactionCount + 1 }
          sessionHits := s.sessionHits + 1 }

/-! ## Checkpoint evaluation (main.ts 1486-1711) -/

/-- The performance index computed at the top of evaluateCheckpoint
(main.ts 1602-1613). -/
def checkpointPI (stats : IntervalStats) (combo : ℕ) : ℚ :=
  let hits := stats.hits
  let misses := stats.misses
  let attempts := hits + misses
  let accuracy : ℚ := if attempts > 0 then (hits : ℚ) / (attempts : ℚ) else 0
  let avgReactionMs : ℚ :=
    if stats.reactionCount ≠ 0 then stats.reactionTotalMs / (stats.reactionCount : ℚ) else 900
  let speed := clamp (1 - avgReactionMs / 900) 0 1
  let comboMetric := clamp ((combo : ℚ) / 20) 0 1
  0.45 * accuracy + 0.35 * speed + 0.2 * comboMetric

/-- getTargetPiForLevel (main.ts 1700-1711). -/
def getTargetPiForLevel (level : ℕ) : ℚ :=
  match level with
  | 1 => 0.42
  | 2 => 0.53
  | 3 => 0.57
  | 4 => 0.61
  | 5 => 0.65
  | 6 => 0.69
  | 7 => 0.72
  | _ => 0.6

/-- setLevel (main.ts 1713-1745), written as one record update.  The source
clears the target list and recency history, reschedules the next spawn,
resets level-entry easing (restarting it on a level increase with a nonzero
configured duration), refreshes the cell layout (which resets cooldowns and
filters the already-empty target list), and moves tier progress to at most
24 on the way up or at least 58 on the way down. -/
def setLevel (s : GameState) (nextLevel : ℕ) : GameState :=
  let clamped := min 7 (max 1 nextLevel)
  if clamped = s.level then s
  else
    let previous := s.level
    let goingUp := previous < clamped
    let easeDurationMs := LEVEL_ENTRY_EASE_MS clamped
    let easing := goingUp ∧ easeDurationMs > 0
    let cells := mkCells (LEVEL_CONFIGS clamped).grid
    { s with
      level := clamped
      activeMoles := []
      recentCellIndices := []
      nextSpawnAtMs := s.elapsedMs + 180
      levelEaseFromLevel := if easing then Option.some previous else Option.none
      levelEaseElapsedMs := 0
      levelEaseDurationMs := if easing then easeDurationMs else 0
      stageFloorLevel := if goingUp then max s.stageFloorLevel clamped else s.stageFloorLevel
      cells := cells
      cellCooldownUntil := List.replicate cells.length 0
      tierProgress :=
        if goingUp then min s.tierProgress 24 else max s.tierProgress 58 }

/-- updatePromotionState (main.ts 1493-1516).  The pending-window expiry
commits the level change through setLevel, then (inlining
resetTimeForStageStart and beginStageTransitionNotice, main.ts 1573-1589)
resets the time bank to the target level's configured start (clamped to the
global bounds), enters the grace state, clears targets and recency history,
and opens the stage-transition lock. -/
def updatePromotionState (s : GameState) (deltaMs : ℚ) : GameState :=
  if s.promotionState = PromotionState.noneSt then s
  else
    let elapsed2 := s.promotionElapsedMs + deltaMs
    if s.promotionState = PromotionState.pending ∧ getPendingDurationMs s ≤ elapsed2 then
      let targetLevel := s.promotionTargetLevel.getD (s.level + 1)
      let s2 := setLevel { s with promotionElapsedMs := elapsed2 } targetLevel
      { s2 with
        timeRemainingMs := clamp (STAGE_START_TIME_MS targetLevel) 1000 MAX_TIME_MS
        promotionState := PromotionState.grace
        promotionElapsedMs := 0
        activeMoles := []
        recentCellIndices := []
        nextSpawnAtMs := s2.elapsedMs + STAGE_TRANSITION_NOTICE_MS + 180
        stageTransitionLockMs := STAGE_TRANSITION_NOTICE_MS }
    else if s.promotionState = PromotionState.grace ∧
        getPromotionGraceDurationMs s ≤ elapsed2 then
      { s with
        promotionState := PromotionState.noneSt
        promotionTargetLevel := Option.none
        promotionElapsedMs := 0 }
    else { s with promotionElapsedMs := elapsed2 }

/-- updateStageTransitionLock (main.ts 1518-1530); message and pause-button
side effects are presentation. -/
def updateStageTransitionLock (s : GameState) (deltaMs : ℚ) : GameState :=
  if s.stageTransitionLockMs ≤ 0 then s
  else { s with stageTransitionLockMs := max 0 (s.stageTransitionLockMs - deltaMs) }

/-- updateLevelEntryEase (main.ts 1532-1542). -/
def updateLevelEntryEase (s : GameState) (deltaMs : ℚ) : GameState :=
  match s.levelEaseFromLevel with
  | Option.none => s
  | Option.some _ =>
    if s.levelEaseDurationMs ≤ 0 then s
    else
      let e := min (s.levelEaseElapsedMs + deltaMs) s.levelEaseDurationMs
      if s.levelEaseDurationMs ≤ e then
        { s with levelEaseFromLevel := Option.none, levelEaseElapsedMs := 0, levelEaseDurationMs := 0 }
      else { s with levelEaseElapsedMs := e }

/-- evaluateCheckpoint (main.ts 1602-1698), with the sequence of field
writes flattened into values computed in source order: skill update, tier
progress delta, time bonus, low-PI streak, promotion cancellation (inlining
cancelPromotion, main.ts 1591-1600: its pending guard is the cancel
condition itself), promotion trigger (inlining startPromotion, main.ts
1551-1563: its not-already-transitioning guard is the trigger condition),
demotion, and the interval-statistics reset. -/
def evaluateCheckpoint (s : GameState) : GameState :=
  let hits := s.intervalStats.hits
  let misses := s.intervalStats.misses
  let attempts := hits + misses
  let pi := checkpointPI s.intervalStats s.combo
  let skill2 := lerp s.skillEMA pi 0.25
  let targetPi := getTargetPiForLevel s.level
  let passiveRamp : ℚ := if s.level = 1 then (if pi ≥ 0.34 then 2.5 else 1.1) else 0.8
  let performanceScale : ℚ := if s.level = 1 then 22 else 32
  let performanceDelta := (skill2 - targetPi) * performanceScale
  let hitMomentum :=
    clamp (((hits : ℚ) - (misses : ℚ)) * (if s.level = 1 then 1.4 else 1.1)) (-8) 10
  let progressDelta := clamp (passiveRamp + performanceDelta + hitMomentum) (-14) 16
  let progressDelta := if attempts = 0 then -2 else progressDelta
  let progressDelta :=
    if s.promotionState = PromotionState.pending then progressDelta * 0.45 else progressDelta
  let progress2 := clamp (s.tierProgress + progressDelta) 0 100
  let bonusMs : ℚ := if pi ≥ 0.88 then 5000 else if pi ≥ 0.75 then 3000 else 0
  let bonusMs := if hits > 0 ∧ misses = 0 then bonusMs + 1000 else bonusMs
  let time2 :=
    if bonusMs > 0 then min MAX_TIME_MS (s.timeRemainingMs + bonusMs) else s.timeRemainingMs
  let streak2 := if pi < 0.4 then s.lowPiStreak + 1 else 0
  let cancels := s.promotionState = PromotionState.pending ∧ 1 < s.level ∧
    skill2 < targetPi - 0.08 ∧ hits < misses
  let promoState2 := if cancels then PromotionState.noneSt else s.promotionState
  let promoTarget2 := if cancels then Option.none else s.promotionTargetLevel
  let promoElapsed2 := if cancels then 0 else s.promotionElapsedMs
  let requiredHits : ℕ := if s.level = 1 then 1 else max 2 (MIN_HITS_TO_LEVEL_UP s.level - 1)
  let requiredProgress : ℚ := if s.level = 1 then 66 else 80
  let requiredSkill : ℚ := if s.level = 1 then targetPi - 0.02 else targetPi + 0.05
  let promotes := promoState2 = PromotionState.noneSt ∧ s.level < 7 ∧
    requiredProgress ≤ progress2 ∧ requiredSkill ≤ skill2 ∧ requiredHits ≤ hits
  let promoState3 := if promotes then PromotionState.pending else promoState2
  let promoTarget3 :=
    if promotes then Option.some (min 7 (max 1 (s.level + 1))) else promoTarget2
  let promoElapsed3 : ℚ := if promotes then 0 else promoElapsed2
  let progress3 := if promotes then max progress2 88 else progress2
  let demotionFloor : ℕ := if s.stageFloorLevel ≥ 2 then 2 else 1
  let demotes := promoState3 = PromotionState.noneSt ∧ demotionFloor < s.level ∧
    s.levelEaseFromLevel = Option.none ∧ (25000 : ℚ) < s.elapsedMs ∧
    4 ≤ streak2 ∧ skill2 ≤ targetPi - 0.22 ∧ progress3 ≤ 16
  let sBase := { s with
    skillEMA := skill2
    tierProgress := progress3
    timeRemainingMs := time2
    lowPiStreak := streak2
    promotionState := promoState3
    promotionTargetLevel := promoTarget3
    promotionElapsedMs := promoElapsed3
    intervalStats := { hits := 0, misses := 0, reactionTotalMs := 0, reactionCount := 0 } }
  if demotes then
    { setLevel sBase (max demotionFloor (s.level - 1)) with lowPiStreak := 0, tierProgress := 60 }
  else sBase

/-- Fuel for the runCheckpointIfNeeded while loop: evaluateCheckpoint never
changes elapsedMs and every iteration moves nextCheckpointAtMs forward by
CHECKPOINT_MS, so this is exactly the number of checkpoints due. -/
def checkpointFuel (s : GameState) : ℕ :=
  (⌊(s.elapsedMs - s.nextCheckpointAtMs) / CHECKPOINT_MS⌋ + 1).toNat

def checkpointLoop : ℕ → GameState → GameState
  | 0, s => s
  | fuel + 1, s =>
    if s.nextCheckpointAtMs ≤ s.elapsedMs then
      checkpointLoop fuel
        { evaluateCheckpoint s with nextCheckpointAtMs := s.nextCheckpointAtMs + CHECKPOINT_MS }
    else s

/-- runCheckpointIfNeeded (main.ts 1486-1491). -/
def runCheckpointIfNeeded (s : GameState) : GameState :=
  checkpointLoop (checkpointFuel s) s

/-- endGame (main.ts 1986-2028): core flags only; match summary, coin
grants and persisted profile are outside the session core. -/
def endGame (s : GameState) : GameState :=
  { s with isRunning := false, isPaused := false, isGameOver := true }

/-- update (main.ts 1130-1154).  updateBgmTempo only drives audio and is
omitted. -/
def update (s : GameState) (deltaMs : ℚ) : GameState :=
  let s := { s with elapsedMs := s.elapsedMs + deltaMs }
  if s.stageTransitionLockMs > 0 then updateStageTransitionLock s deltaMs
  else
    let s :=
      if s.promotionState ≠ PromotionState.pending then
        { s with timeRemainingMs := max 0 (s.timeRemainingMs - deltaMs) }
      else s
    let s := updatePromotionState s deltaMs
    if s.stageTransitionLockMs > 0 then s
    else
      let s := updateLevelEntryEase s deltaMs
      let s := updateMoles deltaMs s
      let s := spawnMolesIfNeeded s
      let s := runCheckpointIfNeeded s
      if s.timeRemainingMs ≤ 0 then endGame s else s

/-! ## External events (tick driver and resolved pointer input) -/

/-- External events: a frame tick carrying a time delta (the driver caps it
at 80ms, main.ts 1024), a pointer strike resolved to a target identity, and
a pointer press on empty board. -/
inductive GEvent where
  | tick (deltaMs : ℚ)
  | strike (moleId : ℕ)
  | emptyClick
  deriving Repr, DecidableEq

/-- Apply one external event.  Strikes follow handlePointerDown/findHitMole
(main.ts 993-1014, 1747-1795): input is ignored while not running, paused
or transition-locked; a press that resolves to a target currently entering
or exposed registers a hit, any other press inside the board registers an
explicit miss. -/
def applyEvent (s : GameState) (e : GEvent) : GameState :=
  match e with
  | GEvent.tick deltaMs =>
    if s.isRunning then (if s.isPaused then s else update s (min 80 deltaMs)) else s
  | GEvent.strike moleId =>
    if s.isRunning ∧ ¬ s.isPaused ∧ ¬ (s.stageTransitionLockMs > 0) then
      match s.activeMoles.find? (fun m => m.id == moleId) with
      | Option.some m =>
        if m.phase = MolePhase.pop ∨ m.phase = MolePhase.idle then registerHit s moleId
        else registerMiss s false
      | Option.none => registerMiss s false
    else s
  | GEvent.emptyClick =>
    if s.isRunning ∧ ¬ s.isPaused ∧ ¬ (s.stageTransitionLockMs > 0) then registerMiss s false
    else s

def runEvents (s : GameState) : List GEvent → GameState
  | [] => s
  | e :: rest => runEvents (applyEvent s e) rest

/-- The match state right after startGame (main.ts 1073-1128) with an
injected randomness stream. -/
def initialState (rng : List ℚ) : GameState :=
  let cells := mkCells 3
  { level := 1
    score := 0
    combo := 0
    bestCombo := 0
    timeRemainingMs := START_TIME_MS
    tierProgress := 0
    skillEMA := 0.5
    promotionState := PromotionState.noneSt
    promotionTargetLevel := Option.none
    promotionElapsedMs := 0
    levelEaseFromLevel := Option.none
    levelEaseElapsedMs := 0
    levelEaseDurationMs := 0
    stageTransitionLockMs := 0
    stageFloorLevel := 1
    lowPiStreak := 0
    elapsedMs := 0
    nextCheckpointAtMs := CHECKPOINT_MS
    nextSpawnAtMs := 300
    activeMoles := []
    recentCellIndices := []
    cellCooldownUntil := List.replicate cells.length 0
    moleSerial := 1
    slowUntilMs := 0
    intervalStats := { hits := 0, misses := 0, reactionTotalMs := 0, reactionCount := 0 }
    sessionHits := 0
    sessionMisses := 0
    isRunning := true
    isPaused := false
    isGameOver := false
    cells := cells
    rng := rng }


/-! ## A concrete match trace refuting the concurrency-bound claim (C2).

Driven from startGame with 80ms frame ticks and resolved pointer strikes,
this trace promotes the session to level 4, raises tier progress just above
50 (where the blended concurrency ceiling rounds from 2 up to 3), lets three
targets spawn under that ceiling, and then a checkpoint full of misses pulls
tier progress back below 50: the ceiling returns to 2 while the three
targets are still active. -/

def ticks (n : ℕ) : List GEvent := List.replicate n (GEvent.tick 80)

/-- The injected Math.random() stream of the C2 trace. -/
def c2Rng : List ℚ :=
  [(0 : ℚ), (0 : ℚ), (0 : ℚ), (0 : ℚ), (0 : ℚ), (0 : ℚ),
    (0 : ℚ), (0 : ℚ), (0 : ℚ), (0 : ℚ), (0 : ℚ), (0 : ℚ),
    (0 : ℚ), (0 : ℚ), (0 : ℚ), (0 : ℚ), (0 : ℚ), (0 : ℚ),
    (0 : ℚ), (0 : ℚ), (0 : ℚ), (0 : ℚ), (0 : ℚ), (0 : ℚ),
    (0 : ℚ), (0 : ℚ), (0 : ℚ), (0 : ℚ), (0 : ℚ), (0 : ℚ),
    (0 : ℚ), (0 : ℚ), (0 : ℚ), (0 : ℚ), (0 : ℚ), (0 : ℚ),
    (0 : ℚ), (0 : ℚ), (0 : ℚ), (0 : ℚ), (0 : ℚ), (0 : ℚ),
    (0 : ℚ), (0 : ℚ), (0 : ℚ), (0 : ℚ), (0 : ℚ), (0 : ℚ),
    (0 : ℚ), (0 : ℚ), (0 : ℚ), (0 : ℚ), (0 : ℚ), (0 : ℚ),
    (0 : ℚ), (0 : ℚ), (0 : ℚ), (0 : ℚ), (0 : ℚ), (0 : ℚ),
    (0 : ℚ), (0 : ℚ), (0 : ℚ), (0 : ℚ), (0 : ℚ), (0 : ℚ),
    (0 : ℚ), (0 : ℚ), (0 : ℚ), (0 : ℚ), (0 : ℚ), (0 : ℚ),
    (0 : ℚ), (0 : ℚ), (0 : ℚ), (0 : ℚ), (0 : ℚ), (0 : ℚ),
    (0 : ℚ), (0 : ℚ), (0 : ℚ), (0 : ℚ), (0 : ℚ), (0 : ℚ),
    (0 : ℚ), (0 : ℚ), (0 : ℚ), (0 : ℚ), (0 : ℚ), (0 : ℚ),
    (0 : ℚ), (0 : ℚ), (0 : ℚ), (0 : ℚ), (0 : ℚ), (0 : ℚ),
    (0 : ℚ), (0 : ℚ), (0 : ℚ), (0 : ℚ), (0 : ℚ), (0 : ℚ),
    (0 : ℚ), (0 : ℚ), (0 : ℚ), (0 : ℚ), (0 : ℚ), (0 : ℚ),
    (0 : ℚ), (0 : ℚ), (0 : ℚ), (0 : ℚ), (0 : ℚ), (0 : ℚ),
    (0 : ℚ), (0 : ℚ), (0 : ℚ), (0 : ℚ), (0 : ℚ), (0 : ℚ),
    (0 : ℚ), (0 : ℚ), (0 : ℚ), (0 : ℚ), (0 : ℚ), (0 : ℚ),
    (0 : ℚ), (0 : ℚ), (0 : ℚ), (0 : ℚ), (0 : ℚ), (0 : ℚ),
    (0 : ℚ), (0 : ℚ), (0 : ℚ), (0 : ℚ), (0 : ℚ), (0 : ℚ),
    (0 : ℚ), (0 : ℚ), (0 : ℚ), (0 : ℚ), (0 : ℚ), (0 : ℚ),
    (0 : ℚ), (0 : ℚ), (0 : ℚ), (0 : ℚ), (0 : ℚ), (0 : ℚ),
    (0 : ℚ), (0 : ℚ), (0 : ℚ), (0 : ℚ), (0 : ℚ), (0 : ℚ),
    (0 : ℚ), (0 : ℚ), (0 : ℚ), (0 : ℚ), (0 : ℚ), (0 : ℚ),
    (0 : ℚ), (0 : ℚ), (0 : ℚ), (0 : ℚ), (0 : ℚ), (0 : ℚ),
    (0 : ℚ), (0 : ℚ), (0 : ℚ), (0 : ℚ), (0 : ℚ), (0 : ℚ),
    (0 : ℚ), (0 : ℚ), (0 : ℚ), (0 : ℚ), (0 : ℚ), (0 : ℚ),
    (0 : ℚ), (0 : ℚ), (0 : ℚ), (0 : ℚ), (0 : ℚ), (0 : ℚ),
    (0 : ℚ), (0 : ℚ), (0 : ℚ), (0 : ℚ), (0 : ℚ), (0 : ℚ),
    (0 : ℚ), (0 : ℚ), (0 : ℚ), (0 : ℚ), (0 : ℚ), (0 : ℚ),
    (0 : ℚ), (0 : ℚ), (0 : ℚ), (0 : ℚ), (0 : ℚ), (0 : ℚ),
    (0 : ℚ), (0 : ℚ), (0 : ℚ), (0 : ℚ), (0 : ℚ), (0 : ℚ),
    (0 : ℚ), (0 : ℚ), (0 : ℚ), (0 : ℚ), (0 : ℚ), (0 : ℚ),
    (0 : ℚ), (0 : ℚ), (0 : ℚ), (0 : ℚ), (0 : ℚ), (0 : ℚ),
    (0 : ℚ), (0 : ℚ), (0 : ℚ), (0 : ℚ), (0 : ℚ), (0 : ℚ),
    (0 : ℚ), (0 : ℚ), (0 : ℚ), (0 : ℚ), (0 : ℚ), (0 : ℚ),
    (0 : ℚ), (0 : ℚ), (0 : ℚ), (0 : ℚ), (0 : ℚ), (0 : ℚ),
    (0 : ℚ), (0 : ℚ), (0 : ℚ), (0 : ℚ), (0 : ℚ), (0 : ℚ),
    (0 : ℚ), (0 : ℚ), (0 : ℚ), (0 : ℚ), (0 : ℚ), (0 : ℚ),
    (0 : ℚ), (0 : ℚ), (0 : ℚ), (0 : ℚ), (0 : ℚ), (0 : ℚ),
    (0 : ℚ), (0 : ℚ), (0 : ℚ), (0 : ℚ), (0 : ℚ), (0 : ℚ),
    (0 : ℚ), (0 : ℚ), (0 : ℚ), (0 : ℚ), (0 : ℚ), (0 : ℚ),
    (0 : ℚ), (0 : ℚ), (0 : ℚ), (0 : ℚ), (0 : ℚ), (0 : ℚ),
    (0 : ℚ), (0 : ℚ), (0 : ℚ), (0 : ℚ), (0 : ℚ), (0 : ℚ),
    (0 : ℚ), (0 : ℚ), (0 : ℚ), (0 : ℚ), (0 : ℚ), (0 : ℚ),
    (0 : ℚ), (0 : ℚ), (0 : ℚ), (0 : ℚ), (0 : ℚ), (0 : ℚ),
    (0 : ℚ), (0 : ℚ), (0 : ℚ), (0 : ℚ), (0 : ℚ), (0 : ℚ),
    (0 : ℚ), (0 : ℚ), (0 : ℚ), (0 : ℚ), (0 : ℚ), (0 : ℚ),
    (0 : ℚ), (0 : ℚ), (0 : ℚ), (0 : ℚ), (0 : ℚ), (0 : ℚ),
    (0 : ℚ), (0 : ℚ), (0 : ℚ), (0 : ℚ), (0 : ℚ), (0 : ℚ),
    (0 : ℚ), (0 : ℚ), (0 : ℚ), (0 : ℚ), (0 : ℚ), (0 : ℚ),
    (0 : ℚ), (0 : ℚ), (0 : ℚ), (0 : ℚ), (0 : ℚ), (0 : ℚ),
    (0 : ℚ), (0 : ℚ), (0 : ℚ), (0 : ℚ), (0 : ℚ), (0 : ℚ),
    (0 : ℚ), (0 : ℚ), (0 : ℚ), (0 : ℚ), (0 : ℚ), (0 : ℚ),
    (0 : ℚ), (0 : ℚ), (0 : ℚ), (0 : ℚ), (0 : ℚ), (0 : ℚ),
    (0 : ℚ), (0 : ℚ), (0 : ℚ), (0 : ℚ), (0 : ℚ), (0 : ℚ),
    (0 : ℚ), (0 : ℚ), (0 : ℚ), (0 : ℚ), (0 : ℚ), (0 : ℚ),
    (0 : ℚ), (0 : ℚ), (0 : ℚ), (0 : ℚ), (0 : ℚ), (0 : ℚ),
    (0 : ℚ), (0 : ℚ), (0 : ℚ), (0 : ℚ), (0 : ℚ), (0 : ℚ),
    (0 : ℚ), (0 : ℚ), (0 : ℚ), (0 : ℚ), (0 : ℚ), (0 : ℚ),
    (0 : ℚ), (0 : ℚ), (0 : ℚ), (0 : ℚ), (0 : ℚ), (0 : ℚ),
    (0 : ℚ), (0 : ℚ), (0 : ℚ), (0 : ℚ), (0 : ℚ), (0 : ℚ),
    (0 : ℚ), (0 : ℚ), (0 : ℚ), (0 : ℚ), (0 : ℚ), (0 : ℚ),
    (0 : ℚ), (0 : ℚ), (0 : ℚ), (0 : ℚ), (0 : ℚ), (0 : ℚ),
    (0 : ℚ), (0 : ℚ), (0 : ℚ), (0 : ℚ), (0 : ℚ), (0 : ℚ),
    (0 : ℚ), (0 : ℚ), (0 : ℚ), (0 : ℚ), (0 : ℚ), (0 : ℚ),
    (0 : ℚ), (0 : ℚ), (0 : ℚ), (0 : ℚ), (0 : ℚ), (0 : ℚ),
    (0 : ℚ), (0 : ℚ), (0 : ℚ), (0 : ℚ), (0 : ℚ), (0 : ℚ),
    (0 : ℚ), (0 : ℚ), (0 : ℚ), (0 : ℚ), (0 : ℚ), (0 : ℚ),
    (0 : ℚ), (0 : ℚ), (0 : ℚ), (0 : ℚ), (0 : ℚ), (0 : ℚ),
    (0 : ℚ), (0 : ℚ), (0 : ℚ), (0 : ℚ), (0 : ℚ), (0 : ℚ),
    (0 : ℚ), (0 : ℚ), (0 : ℚ), (0 : ℚ), (0 : ℚ), (0 : ℚ),
    (0 : ℚ), (0 : ℚ), (0 : ℚ), (0 : ℚ), (0 : ℚ), (0 : ℚ),
    (0 : ℚ), (0 : ℚ), (0 : ℚ), (0 : ℚ), (0 : ℚ), (0 : ℚ),
    (0 : ℚ), (0 : ℚ), (0 : ℚ), (0 : ℚ), (0 : ℚ), (0 : ℚ),
    (0 : ℚ), (0 : ℚ), (0 : ℚ), (0 : ℚ), (0 : ℚ), (0 : ℚ),
    (0 : ℚ), (0 : ℚ), (0 : ℚ), (0 : ℚ), (0 : ℚ), (0 : ℚ),
    (0 : ℚ), (0 : ℚ), (0 : ℚ), (0 : ℚ), (0 : ℚ), (0 : ℚ),
    (0 : ℚ), (0 : ℚ), (0 : ℚ), (0 : ℚ), (0 : ℚ), (0 : ℚ),
    (0 : ℚ), (0 : ℚ), (0 : ℚ), (0 : ℚ), (0 : ℚ), (0 : ℚ),
    (0 : ℚ), (0 : ℚ), (0 : ℚ), (0 : ℚ), (0 : ℚ), (0 : ℚ),
    (0 : ℚ), (0 : ℚ), (0 : ℚ), (0 : ℚ), (0 : ℚ), (0 : ℚ),
    (0 : ℚ), (0 : ℚ), (0 : ℚ), (0 : ℚ), (0 : ℚ), (0 : ℚ),
    (0 : ℚ), (0 : ℚ), (0 : ℚ), (0 : ℚ), (0 : ℚ), (0 : ℚ),
    (0 : ℚ), (0 : ℚ), (0 : ℚ), (0 : ℚ), (0 : ℚ), (0 : ℚ),
    (0 : ℚ), (0 : ℚ), (0 : ℚ), (0 : ℚ), (0 : ℚ), (0 : ℚ),
    (0 : ℚ), (0 : ℚ), (0 : ℚ), (0 : ℚ), (0 : ℚ), (0 : ℚ),
    (0 : ℚ), (0 : ℚ), (0 : ℚ), (0 : ℚ), (0 : ℚ), (0 : ℚ),
    (0 : ℚ), (0 : ℚ), (0 : ℚ), (0 : ℚ), (0 : ℚ), (0 : ℚ),
    (0 : ℚ), (0 : ℚ), (0 : ℚ), (0 : ℚ), (0 : ℚ), (0 : ℚ),
    (0 : ℚ), (0 : ℚ), (0 : ℚ), (0 : ℚ), (0 : ℚ), (0 : ℚ),
    (0 : ℚ), (0 : ℚ), (0 : ℚ), (0 : ℚ), (0 : ℚ), (0 : ℚ),
    (0 : ℚ), (0 : ℚ), (0 : ℚ), (0 : ℚ), (0 : ℚ), (0 : ℚ),
    (0 : ℚ), (0 : ℚ), (0 : ℚ), (0 : ℚ), (0 : ℚ), (0 : ℚ),
    (0 : ℚ), (0 : ℚ), (0 : ℚ), (0 : ℚ), (0 : ℚ), (0 : ℚ),
    (0 : ℚ), (0 : ℚ), (0 : ℚ), (0 : ℚ), (0 : ℚ), (0 : ℚ),
    (0 : ℚ), (0 : ℚ), (0 : ℚ), (0 : ℚ), (0 : ℚ), (0 : ℚ),
    (0 : ℚ), (0 : ℚ), (0 : ℚ), (0 : ℚ), (0 : ℚ), (0 : ℚ),
    (0 : ℚ), (0 : ℚ), (0 : ℚ), (0 : ℚ), (0 : ℚ), (0 : ℚ),
    (0 : ℚ), (0 : ℚ), (0 : ℚ), (0 : ℚ), (0 : ℚ), (0 : ℚ),
    (0 : ℚ), (0 : ℚ), (0 : ℚ), (0 : ℚ), (0 : ℚ), (0 : ℚ),
    (0 : ℚ), (0 : ℚ), (0 : ℚ), (0 : ℚ), (0 : ℚ), (0 : ℚ),
    (0 : ℚ), (0 : ℚ), (0 : ℚ), (0 : ℚ), (0 : ℚ), (0 : ℚ),
    (0 : ℚ), (0 : ℚ), (0 : ℚ), (0 : ℚ), (0 : ℚ), (0 : ℚ),
    (0 : ℚ), (0 : ℚ), (0 : ℚ), (0 : ℚ), ((9 : ℚ)/10), ((382203142678741 : ℚ)/901336768333753),
    (0 : ℚ), ((9 : ℚ)/10), ((10753563588346151 : ℚ)/16546482657723777), (0 : ℚ), (0 : ℚ), ((9 : ℚ)/10),
    ((868999944251639 : ℚ)/1837796188822787), (0 : ℚ), ((9 : ℚ)/10), ((22802010950288029 : ℚ)/33674820286285083), (0 : ℚ), (0 : ℚ),
    ((9 : ℚ)/10), ((220643766909 : ℚ)/459128685697), (0 : ℚ), ((9 : ℚ)/10), ((5731144411999 : ℚ)/8410348251273), (0 : ℚ),
    (0 : ℚ), ((9 : ℚ)/10), ((220643766909 : ℚ)/459128685697), (0 : ℚ), ((9 : ℚ)/10), ((5731144411999 : ℚ)/8410348251273),
    (0 : ℚ), (0 : ℚ), ((9 : ℚ)/10), ((220643766909 : ℚ)/459128685697), (0 : ℚ), ((9 : ℚ)/10),
    ((7959368411999 : ℚ)/8410348251273), (0 : ℚ), (0 : ℚ), ((9 : ℚ)/10), ((220643766909 : ℚ)/459128685697), (0 : ℚ),
    ((9 : ℚ)/10), ((95048411999 : ℚ)/8410348251273), (0 : ℚ), (0 : ℚ), ((9 : ℚ)/10), ((220643766909 : ℚ)/459128685697),
    (0 : ℚ), ((9 : ℚ)/10), ((119064137333 : ℚ)/2803449417091), (0 : ℚ), (0 : ℚ), ((9 : ℚ)/10),
    ((220643766909 : ℚ)/459128685697), (0 : ℚ), ((9 : ℚ)/10), (0 : ℚ)]

def c2Events1 : List GEvent :=
  ticks 4 ++
    [GEvent.strike 1] ++
    ticks 11 ++
    [GEvent.strike 2] ++
    ticks 11 ++
    [GEvent.strike 3] ++
    ticks 11 ++
    [GEvent.strike 4] ++
    ticks 10 ++
    [GEvent.strike 5] ++
    ticks 11 ++
    [GEvent.strike 6] ++
    ticks 11 ++
    [GEvent.strike 7] ++
    ticks 11 ++
    [GEvent.strike 8] ++
    ticks 10 ++
    [GEvent.strike 9] ++
    ticks 11 ++
    [GEvent.strike 10] ++
    ticks 11 ++
    [GEvent.strike 11] ++
    ticks 7

def c2Events2 : List GEvent :=
  ticks 3 ++
    [GEvent.strike 12] ++
    ticks 11 ++
    [GEvent.strike 13] ++
    ticks 10 ++
    [GEvent.strike 14] ++
    ticks 11 ++
    [GEvent.strike 15] ++
    ticks 11 ++
    [GEvent.strike 16] ++
    ticks 10 ++
    [GEvent.strike 17] ++
    ticks 11 ++
    [GEvent.strike 18] ++
    ticks 10 ++
    [GEvent.strike 19] ++
    ticks 11 ++
    [GEvent.strike 20] ++
    ticks 10 ++
    [GEvent.strike 21] ++
    ticks 10 ++
    [GEvent.strike 22] ++
    ticks 11

def c2Events3 : List GEvent :=
  [GEvent.strike 23] ++
    ticks 10 ++
    [GEvent.strike 24] ++
    ticks 11 ++
    [GEvent.strike 25] ++
    ticks 10 ++
    [GEvent.strike 26] ++
    ticks 10 ++
    [GEvent.strike 27] ++
    ticks 10 ++
    [GEvent.strike 28] ++
    ticks 11 ++
    [GEvent.strike 29] ++
    ticks 10 ++
    [GEvent.strike 30] ++
    ticks 10 ++
    [GEvent.strike 31] ++
    ticks 33 ++
    [GEvent.strike 32] ++
    ticks 5

def c2Events4 : List GEvent :=
  ticks 7 ++
    [GEvent.strike 33] ++
    ticks 11 ++
    [GEvent.strike 34] ++
    ticks 12 ++
    [GEvent.strike 35] ++
    ticks 11 ++
    [GEvent.strike 36] ++
    ticks 12 ++
    [GEvent.strike 37] ++
    ticks 11 ++
    [GEvent.strike 38] ++
    ticks 11 ++
    [GEvent.strike 39] ++
    ticks 10 ++
    [GEvent.strike 40] ++
    ticks 11 ++
    [GEvent.strike 41] ++
    ticks 9 ++
    [GEvent.strike 42] ++
    ticks 9 ++
    [GEvent.strike 43] ++
    ticks 5

def c2Events5 : List GEvent :=
  ticks 5 ++
    [GEvent.strike 44] ++
    ticks 9 ++
    [GEvent.strike 45] ++
    ticks 8 ++
    [GEvent.strike 46] ++
    ticks 9 ++
    [GEvent.strike 47] ++
    ticks 9 ++
    [GEvent.strike 48] ++
    ticks 8 ++
    [GEvent.strike 49] ++
    ticks 9 ++
    [GEvent.strike 50] ++
    ticks 8 ++
    [GEvent.strike 51] ++
    ticks 9 ++
    [GEvent.strike 52] ++
    ticks 9 ++
    [GEvent.strike 53] ++
    ticks 8 ++
    [GEvent.strike 54] ++
    ticks 9 ++
    [GEvent.strike 55] ++
    ticks 18

def c2Events6 : List GEvent :=
  ticks 12 ++
    [GEvent.strike 56] ++
    ticks 10 ++
    [GEvent.strike 57] ++
    ticks 10 ++
    [GEvent.strike 58] ++
    ticks 9 ++
    [GEvent.strike 59] ++
    ticks 10 ++
    [GEvent.strike 60] ++
    ticks 9 ++
    [GEvent.strike 61] ++
    ticks 10 ++
    [GEvent.strike 62] ++
    ticks 9 ++
    [GEvent.strike 63] ++
    ticks 9 ++
    [GEvent.strike 64] ++
    ticks 8 ++
    [GEvent.strike 65] ++
    ticks 8 ++
    [GEvent.strike 66] ++
    ticks 8 ++
    [GEvent.strike 67] ++
    ticks 6

def c2Events7 : List GEvent :=
  ticks 2 ++
    [GEvent.strike 68] ++
    ticks 8 ++
    [GEvent.strike 69] ++
    ticks 8 ++
    [GEvent.strike 70] ++
    ticks 8 ++
    [GEvent.strike 71] ++
    ticks 8 ++
    [GEvent.strike 72] ++
    ticks 8 ++
    [GEvent.strike 73] ++
    ticks 8 ++
    [GEvent.strike 74] ++
    ticks 8 ++
    [GEvent.strike 75] ++
    ticks 8 ++
    [GEvent.strike 76] ++
    ticks 8 ++
    [GEvent.strike 77] ++
    ticks 8 ++
    [GEvent.strike 78] ++
    ticks 8 ++
    [GEvent.strike 79] ++
    ticks 8 ++
    [GEvent.strike 80] ++
    ticks 8 ++
    [GEvent.strike 81] ++
    ticks 8 ++
    [GEvent.strike 82] ++
    ticks 1

def c2Events8 : List GEvent :=
  ticks 29 ++
    [GEvent.strike 83] ++
    ticks 9 ++
    [GEvent.strike 84] ++
    ticks 41 ++
    [GEvent.strike 88] ++
    ticks 2 ++
    [GEvent.strike 89] ++
    ticks 8 ++
    [GEvent.strike 90] ++
    ticks 8 ++
    [GEvent.strike 91] ++
    ticks 8 ++
    [GEvent.strike 92] ++
    ticks 18

def c2Events9 : List GEvent :=
  ticks 49

/-- The full event trace of the C2 counterexample. -/
def c2Events : List GEvent :=
  c2Events1 ++ c2Events2 ++ c2Events3 ++ c2Events4 ++ c2Events5 ++ c2Events6 ++ c2Events7 ++ c2Events8 ++ c2Events9

def c2State1 : GameState :=
  { level := 1
    score := 13
    combo := 11
    bestCombo := 11
    timeRemainingMs := (39480 : ℚ)
    tierProgress := ((366 : ℚ)/25)
    skillEMA := ((59 : ℚ)/100)
    promotionState := PromotionState.noneSt
    promotionTargetLevel := Option.none
    promotionElapsedMs := (0 : ℚ)
    levelEaseFromLevel := Option.none
    levelEaseElapsedMs := (0 : ℚ)
    levelEaseDurationMs := (0 : ℚ)
    stageTransitionLockMs := (0 : ℚ)
    stageFloorLevel := 1
    lowPiStreak := 0
    elapsedMs := (9520 : ℚ)
    nextCheckpointAtMs := (10000 : ℚ)
    nextSpawnAtMs := ((30437564 : ℚ)/3125)
    activeMoles :=
    []
    recentCellIndices := [1, 2, 3, 0, 1, 2]
    cellCooldownUntil :=
    [(8100 : ℚ), (8980 : ℚ), (9860 : ℚ), (7300 : ℚ), (0 : ℚ), (0 : ℚ),
    (0 : ℚ), (0 : ℚ), (0 : ℚ)]
    moleSerial := 12
    slowUntilMs := (0 : ℚ)
    intervalStats := { hits := 5, misses := 0, reactionTotalMs := (0 : ℚ), reactionCount := 5 }
    sessionHits := 11
    sessionMisses := 0
    isRunning := true
    isPaused := false
    isGameOver := false
    cells := mkCells 3
    rng := c2Rng.drop 77 }

def c2State2 : GameState :=
  { level := 1
    score := 35
    combo := 22
    bestCombo := 22
    timeRemainingMs := (41960 : ℚ)
    tierProgress := ((1166 : ℚ)/25)
    skillEMA := ((1199 : ℚ)/1600)
    promotionState := PromotionState.noneSt
    promotionTargetLevel := Option.none
    promotionElapsedMs := (0 : ℚ)
    levelEaseFromLevel := Option.none
    levelEaseElapsedMs := (0 : ℚ)
    levelEaseDurationMs := (0 : ℚ)
    stageTransitionLockMs := (0 : ℚ)
    stageFloorLevel := 1
    lowPiStreak := 0
    elapsedMs := (19040 : ℚ)
    nextCheckpointAtMs := (20000 : ℚ)
    nextSpawnAtMs := ((309614188 : ℚ)/15625)
    activeMoles :=
    [{ id := 23, cellIndex := 2, type := MoleType.normal, phase := MolePhase.pop, phaseElapsedMs := (0 : ℚ), spawnedAtMs := (19040 : ℚ), popDurationMs := (120 : ℚ), idleDurationMs := ((2858331 : ℚ)/2500), hitDurationMs := (130 : ℚ), retreatDurationMs := (100 : ℚ), wasHit := false }]
    recentCellIndices := [1, 2, 3, 0, 1, 2]
    cellCooldownUntil :=
    [(18260 : ℚ), (19060 : ℚ), (19940 : ℚ), (17460 : ℚ), (0 : ℚ), (0 : ℚ),
    (0 : ℚ), (0 : ℚ), (0 : ℚ)]
    moleSerial := 24
    slowUntilMs := (0 : ℚ)
    intervalStats := { hits := 4, misses := 0, reactionTotalMs := (0 : ℚ), reactionCount := 4 }
    sessionHits := 22
    sessionMisses := 0
    isRunning := true
    isPaused := false
    isGameOver := false
    cells := mkCells 3
    rng := c2Rng.drop 161 }

def c2State3 : GameState :=
  { level := 2
    score := 55
    combo := 32
    bestCombo := 32
    timeRemainingMs := (44440 : ℚ)
    tierProgress := (24 : ℚ)
    skillEMA := ((21991 : ℚ)/25600)
    promotionState := PromotionState.grace
    promotionTargetLevel := (Option.some 2)
    promotionElapsedMs := (560 : ℚ)
    levelEaseFromLevel := (Option.some 1)
    levelEaseElapsedMs := (560 : ℚ)
    levelEaseDurationMs := (14000 : ℚ)
    stageTransitionLockMs := (0 : ℚ)
    stageFloorLevel := 2
    lowPiStreak := 0
    elapsedMs := (28640 : ℚ)
    nextCheckpointAtMs := (30000 : ℚ)
    nextSpawnAtMs := ((488227800242188 : ℚ)/16748046875)
    activeMoles :=
    []
    recentCellIndices := [1]
    cellCooldownUntil :=
    [(0 : ℚ), (29140 : ℚ), (0 : ℚ), (0 : ℚ), (0 : ℚ), (0 : ℚ),
    (0 : ℚ), (0 : ℚ), (0 : ℚ), (0 : ℚ), (0 : ℚ), (0 : ℚ),
    (0 : ℚ), (0 : ℚ), (0 : ℚ), (0 : ℚ)]
    moleSerial := 33
    slowUntilMs := (0 : ℚ)
    intervalStats := { hits := 2, misses := 0, reactionTotalMs := (0 : ℚ), reactionCount := 2 }
    sessionHits := 32
    sessionMisses := 0
    isRunning := true
    isPaused := false
    isGameOver := false
    cells := mkCells 4
    rng := c2Rng.drop 224 }

def c2State4 : GameState :=
  { level := 2
    score := 77
    combo := 43
    bestCombo := 43
    timeRemainingMs := (46920 : ℚ)
    tierProgress := ((178421 : ℚ)/3200)
    skillEMA := ((377119 : ℚ)/409600)
    promotionState := PromotionState.noneSt
    promotionTargetLevel := Option.none
    promotionElapsedMs := (0 : ℚ)
    levelEaseFromLevel := (Option.some 1)
    levelEaseElapsedMs := (10080 : ℚ)
    levelEaseDurationMs := (14000 : ℚ)
    stageTransitionLockMs := (0 : ℚ)
    stageFloorLevel := 2
    lowPiStreak := 0
    elapsedMs := (38160 : ℚ)
    nextCheckpointAtMs := (40000 : ℚ)
    nextSpawnAtMs := ((51561938621640773 : ℚ)/1339843750000)
    activeMoles :=
    []
    recentCellIndices := [4, 5, 0, 1, 2, 3]
    cellCooldownUntil :=
    [(36340 : ℚ), (37220 : ℚ), (37940 : ℚ), (38660 : ℚ), (34660 : ℚ), (35540 : ℚ),
    (0 : ℚ), (0 : ℚ), (0 : ℚ), (0 : ℚ), (0 : ℚ), (0 : ℚ),
    (0 : ℚ), (0 : ℚ), (0 : ℚ), (0 : ℚ)]
    moleSerial := 44
    slowUntilMs := (0 : ℚ)
    intervalStats := { hits := 4, misses := 0, reactionTotalMs := (0 : ℚ), reactionCount := 4 }
    sessionHits := 43
    sessionMisses := 0
    isRunning := true
    isPaused := false
    isGameOver := false
    cells := mkCells 4
    rng := c2Rng.drop 301 }

def c2State5 : GameState :=
  { level := 3
    score := 101
    combo := 55
    bestCombo := 55
    timeRemainingMs := (43000 : ℚ)
    tierProgress := (24 : ℚ)
    skillEMA := ((6261271 : ℚ)/6553600)
    promotionState := PromotionState.grace
    promotionTargetLevel := (Option.some 3)
    promotionElapsedMs := (0 : ℚ)
    levelEaseFromLevel := (Option.some 2)
    levelEaseElapsedMs := (0 : ℚ)
    levelEaseDurationMs := (10000 : ℚ)
    stageTransitionLockMs := (760 : ℚ)
    stageFloorLevel := 3
    lowPiStreak := 0
    elapsedMs := (47600 : ℚ)
    nextCheckpointAtMs := (50000 : ℚ)
    nextSpawnAtMs := (48540 : ℚ)
    activeMoles :=
    []
    recentCellIndices := []
    cellCooldownUntil :=
    [(0 : ℚ), (0 : ℚ), (0 : ℚ), (0 : ℚ), (0 : ℚ), (0 : ℚ),
    (0 : ℚ), (0 : ℚ), (0 : ℚ), (0 : ℚ), (0 : ℚ), (0 : ℚ),
    (0 : ℚ), (0 : ℚ), (0 : ℚ), (0 : ℚ), (0 : ℚ), (0 : ℚ),
    (0 : ℚ), (0 : ℚ), (0 : ℚ), (0 : ℚ), (0 : ℚ), (0 : ℚ),
    (0 : ℚ)]
    moleSerial := 56
    slowUntilMs := (0 : ℚ)
    intervalStats := { hits := 2, misses := 0, reactionTotalMs := (0 : ℚ), reactionCount := 2 }
    sessionHits := 55
    sessionMisses := 0
    isRunning := true
    isPaused := false
    isGameOver := false
    cells := mkCells 5
    rng := c2Rng.drop 385 }

def c2State6 : GameState :=
  { level := 3
    score := 125
    combo := 67
    bestCombo := 67
    timeRemainingMs := (46360 : ℚ)
    tierProgress := (56 : ℚ)
    skillEMA := ((102226639 : ℚ)/104857600)
    promotionState := PromotionState.noneSt
    promotionTargetLevel := Option.none
    promotionElapsedMs := (0 : ℚ)
    levelEaseFromLevel := (Option.some 2)
    levelEaseElapsedMs := (8640 : ℚ)
    levelEaseDurationMs := (10000 : ℚ)
    stageTransitionLockMs := (0 : ℚ)
    stageFloorLevel := 3
    lowPiStreak := 0
    elapsedMs := (57040 : ℚ)
    nextCheckpointAtMs := (60000 : ℚ)
    nextSpawnAtMs := ((349104204271796 : ℚ)/6103515625)
    activeMoles :=
    []
    recentCellIndices := [3, 5, 0, 1, 2, 3]
    cellCooldownUntil :=
    [(55540 : ℚ), (56180 : ℚ), (56820 : ℚ), (57460 : ℚ), (0 : ℚ), (54820 : ℚ),
    (0 : ℚ), (0 : ℚ), (0 : ℚ), (0 : ℚ), (0 : ℚ), (0 : ℚ),
    (0 : ℚ), (0 : ℚ), (0 : ℚ), (0 : ℚ), (0 : ℚ), (0 : ℚ),
    (0 : ℚ), (0 : ℚ), (0 : ℚ), (0 : ℚ), (0 : ℚ), (0 : ℚ),
    (0 : ℚ)]
    moleSerial := 68
    slowUntilMs := (0 : ℚ)
    intervalStats := { hits := 3, misses := 0, reactionTotalMs := (0 : ℚ), reactionCount := 3 }
    sessionHits := 67
    sessionMisses := 0
    isRunning := true
    isPaused := false
    isGameOver := false
    cells := mkCells 5
    rng := c2Rng.drop 469 }

def c2State7 : GameState :=
  { level := 3
    score := 155
    combo := 82
    bestCombo := 82
    timeRemainingMs := (50360 : ℚ)
    tierProgress := (88 : ℚ)
    skillEMA := ((1654042951 : ℚ)/1677721600)
    promotionState := PromotionState.pending
    promotionTargetLevel := (Option.some 4)
    promotionElapsedMs := (1200 : ℚ)
    levelEaseFromLevel := Option.none
    levelEaseElapsedMs := (0 : ℚ)
    levelEaseDurationMs := (0 : ℚ)
    stageTransitionLockMs := (0 : ℚ)
    stageFloorLevel := 3
    lowPiStreak := 0
    elapsedMs := (66240 : ℚ)
    nextCheckpointAtMs := (70000 : ℚ)
    nextSpawnAtMs := ((8347792 : ℚ)/125)
    activeMoles :=
    [{ id := 82, cellIndex := 2, type := MoleType.normal, phase := MolePhase.hit, phaseElapsedMs := (80 : ℚ), spawnedAtMs := (66160 : ℚ), popDurationMs := (120 : ℚ), idleDurationMs := ((3948 : ℚ)/5), hitDurationMs := (130 : ℚ), retreatDurationMs := (100 : ℚ), wasHit := true }]
    recentCellIndices := [1, 2, 3, 0, 1, 2]
    cellCooldownUntil :=
    [(65780 : ℚ), (66420 : ℚ), (67060 : ℚ), (65140 : ℚ), (0 : ℚ), (54820 : ℚ),
    (0 : ℚ), (0 : ℚ), (0 : ℚ), (0 : ℚ), (0 : ℚ), (0 : ℚ),
    (0 : ℚ), (0 : ℚ), (0 : ℚ), (0 : ℚ), (0 : ℚ), (0 : ℚ),
    (0 : ℚ), (0 : ℚ), (0 : ℚ), (0 : ℚ), (0 : ℚ), (0 : ℚ),
    (0 : ℚ)]
    moleSerial := 83
    slowUntilMs := (0 : ℚ)
    intervalStats := { hits := 2, misses := 0, reactionTotalMs := (0 : ℚ), reactionCount := 2 }
    sessionHits := 82
    sessionMisses := 0
    isRunning := true
    isPaused := false
    isGameOver := false
    cells := mkCells 5
    rng := c2Rng.drop 574 }

def c2State8 : GameState :=
  { level := 4
    score := 164
    combo := 5
    bestCombo := 84
    timeRemainingMs := (39320 : ℚ)
    tierProgress := ((44187794303 : ℚ)/838860800)
    skillEMA := ((24491342719 : ℚ)/26843545600)
    promotionState := PromotionState.noneSt
    promotionTargetLevel := Option.none
    promotionElapsedMs := (0 : ℚ)
    levelEaseFromLevel := (Option.some 3)
    levelEaseElapsedMs := (7680 : ℚ)
    levelEaseDurationMs := (8000 : ℚ)
    stageTransitionLockMs := (0 : ℚ)
    stageFloorLevel := 4
    lowPiStreak := 0
    elapsedMs := (76080 : ℚ)
    nextCheckpointAtMs := (80000 : ℚ)
    nextSpawnAtMs := (76675 : ℚ)
    activeMoles :=
    [{ id := 93, cellIndex := 2, type := MoleType.normal, phase := MolePhase.idle, phaseElapsedMs := (560 : ℚ), spawnedAtMs := (75280 : ℚ), popDurationMs := (165 : ℚ), idleDurationMs := (801 : ℚ), hitDurationMs := (130 : ℚ), retreatDurationMs := (145 : ℚ), wasHit := false },
    { id := 94, cellIndex := 3, type := MoleType.normal, phase := MolePhase.pop, phaseElapsedMs := (80 : ℚ), spawnedAtMs := (76000 : ℚ), popDurationMs := (165 : ℚ), idleDurationMs := (801 : ℚ), hitDurationMs := (130 : ℚ), retreatDurationMs := (145 : ℚ), wasHit := false }]
    recentCellIndices := [3, 4, 0, 1, 2, 3]
    cellCooldownUntil :=
    [(74900 : ℚ), (75540 : ℚ), (76180 : ℚ), (76900 : ℚ), (74260 : ℚ), (0 : ℚ),
    (0 : ℚ), (0 : ℚ), (0 : ℚ), (0 : ℚ), (0 : ℚ), (0 : ℚ),
    (0 : ℚ), (0 : ℚ), (0 : ℚ), (0 : ℚ), (0 : ℚ), (0 : ℚ),
    (0 : ℚ), (0 : ℚ), (0 : ℚ), (0 : ℚ), (0 : ℚ), (0 : ℚ),
    (0 : ℚ), (0 : ℚ), (0 : ℚ), (0 : ℚ), (0 : ℚ), (0 : ℚ),
    (0 : ℚ), (0 : ℚ), (0 : ℚ), (0 : ℚ), (0 : ℚ), (0 : ℚ)]
    moleSerial := 95
    slowUntilMs := (0 : ℚ)
    intervalStats := { hits := 0, misses := 0, reactionTotalMs := (0 : ℚ), reactionCount := 0 }
    sessionHits := 89
    sessionMisses := 3
    isRunning := true
    isPaused := false
    isGameOver := false
    cells := mkCells 6
    rng := c2Rng.drop 658 }

def c2State9 : GameState :=
  { level := 4
    score := 164
    combo := 0
    bestCombo := 84
    timeRemainingMs := (35400 : ℚ)
    tierProgress := ((33053076709 : ℚ)/671088640)
    skillEMA := ((73474028157 : ℚ)/107374182400)
    promotionState := PromotionState.noneSt
    promotionTargetLevel := Option.none
    promotionElapsedMs := (0 : ℚ)
    levelEaseFromLevel := Option.none
    levelEaseElapsedMs := (0 : ℚ)
    levelEaseDurationMs := (0 : ℚ)
    stageTransitionLockMs := (0 : ℚ)
    stageFloorLevel := 4
    lowPiStreak := 1
    elapsedMs := (80000 : ℚ)
    nextCheckpointAtMs := (85000 : ℚ)
    nextSpawnAtMs := ((4224879799588001 : ℚ)/52428800000)
    activeMoles :=
    [{ id := 98, cellIndex := 3, type := MoleType.normal, phase := MolePhase.retreat, phaseElapsedMs := (0 : ℚ), spawnedAtMs := (78880 : ℚ), popDurationMs := (165 : ℚ), idleDurationMs := (801 : ℚ), hitDurationMs := (130 : ℚ), retreatDurationMs := (145 : ℚ), wasHit := false },
    { id := 99, cellIndex := 0, type := MoleType.normal, phase := MolePhase.idle, phaseElapsedMs := (320 : ℚ), spawnedAtMs := (79440 : ℚ), popDurationMs := (165 : ℚ), idleDurationMs := (801 : ℚ), hitDurationMs := (130 : ℚ), retreatDurationMs := (145 : ℚ), wasHit := false },
    { id := 100, cellIndex := 1, type := MoleType.normal, phase := MolePhase.pop, phaseElapsedMs := (0 : ℚ), spawnedAtMs := (80000 : ℚ), popDurationMs := (165 : ℚ), idleDurationMs := (801 : ℚ), hitDurationMs := (130 : ℚ), retreatDurationMs := (145 : ℚ), wasHit := false }]
    recentCellIndices := [0, 1, 2, 3, 0, 1]
    cellCooldownUntil :=
    [(80340 : ℚ), (80900 : ℚ), (78980 : ℚ), (79780 : ℚ), (74260 : ℚ), (0 : ℚ),
    (0 : ℚ), (0 : ℚ), (0 : ℚ), (0 : ℚ), (0 : ℚ), (0 : ℚ),
    (0 : ℚ), (0 : ℚ), (0 : ℚ), (0 : ℚ), (0 : ℚ), (0 : ℚ),
    (0 : ℚ), (0 : ℚ), (0 : ℚ), (0 : ℚ), (0 : ℚ), (0 : ℚ),
    (0 : ℚ), (0 : ℚ), (0 : ℚ), (0 : ℚ), (0 : ℚ), (0 : ℚ),
    (0 : ℚ), (0 : ℚ), (0 : ℚ), (0 : ℚ), (0 : ℚ), (0 : ℚ)]
    moleSerial := 101
    slowUntilMs := (0 : ℚ)
    intervalStats := { hits := 0, misses := 0, reactionTotalMs := (0 : ℚ), reactionCount := 0 }
    sessionHits := 89
    sessionMisses := 9
    isRunning := true
    isPaused := false
    isGameOver := false
    cells := mkCells 6
    rng := c2Rng.drop 700 }

/-! ## Concrete states and spec-side definitions used by the claim theorems -/

def c1S : GameState := { initialState [] with slowUntilMs := 1000 }

def c3S : GameState := { initialState [] with elapsedMs := 400 }

def c4S : GameState := initialState []

def c6Mole : ActiveMole :=
  { id := 0, cellIndex := 0, type := MoleType.bomb, phase := MolePhase.idle,
    phaseElapsedMs := 0, spawnedAtMs := 0, popDurationMs := 150, idleDurationMs := 800,
    hitDurationMs := 150, retreatDurationMs := 120, wasHit := false }

def c6S : GameState := { initialState [] with activeMoles := [c6Mole], combo := 7, score := 10 }

def c7Mole (k : ℕ) : ActiveMole :=
  { id := k, cellIndex := k, type := MoleType.normal, phase := MolePhase.idle,
    phaseElapsedMs := 0, spawnedAtMs := 0, popDurationMs := 150, idleDurationMs := 800,
    hitDurationMs := 150, retreatDurationMs := 120, wasHit := false }

def c7S : GameState := { initialState [] with activeMoles := (List.range 5).map c7Mole }

def c7Final : GameState := (List.range 5).foldl (fun st k => registerHit st k) c7S

def c9Mole : ActiveMole :=
  { id := 0, cellIndex := 0, type := MoleType.normal, phase := MolePhase.retreat,
    phaseElapsedMs := 0, spawnedAtMs := 0, popDurationMs := 150, idleDurationMs := 800,
    hitDurationMs := 150, retreatDurationMs := 120, wasHit := false }

def c9S : GameState := { initialState [] with activeMoles := [c9Mole] }

def c10S : GameState :=
  { initialState [] with
    promotionState := PromotionState.pending
    promotionTargetLevel := Option.some 2 }

def accuracySpec (stats : IntervalStats) : ℚ :=
  if stats.hits + stats.misses > 0 then (stats.hits : ℚ) / ((stats.hits + stats.misses : ℕ) : ℚ)
  else 0

def speedSpec (stats : IntervalStats) : ℚ :=
  let avgReactionMs : ℚ :=
    if stats.reactionCount ≠ 0 then stats.reactionTotalMs / (stats.reactionCount : ℚ) else 900
  clamp (1 - avgReactionMs / 900) 0 1

def comboSpec (combo : ℕ) : ℚ := clamp ((combo : ℚ) / 20) 0 1

theorem c2_chunk1 : runEvents (initialState c2Rng) c2Events1 = c2State1 := by
  with_unfolding_all rfl

theorem c2_chunk2 : runEvents c2State1 c2Events2 = c2State2 := by
  with_unfolding_all rfl

theorem c2_chunk3 : runEvents c2State2 c2Events3 = c2State3 := by
  with_unfolding_all rfl

theorem c2_chunk4 : runEvents c2State3 c2Events4 = c2State4 := by
  with_unfolding_all rfl

theorem c2_chunk5 : runEvents c2State4 c2Events5 = c2State5 := by
  with_unfolding_all rfl

theorem c2_chunk6 : runEvents c2State5 c2Events6 = c2State6 := by
  with_unfolding_all rfl

theorem c2_chunk7 : runEvents c2State6 c2Events7 = c2State7 := by
  with_unfolding_all rfl

theorem c2_chunk8 : runEvents c2State7 c2Events8 = c2State8 := by
  with_unfolding_all rfl

theorem c2_chunk9 : runEvents c2State8 c2Events9 = c2State9 := by
  with_unfolding_all rfl

theorem runEvents_append (s : GameState) (a b : List GEvent) :
    runEvents s (a ++ b) = runEvents (runEvents s a) b := by
  induction a generalizing s with
  | nil => rfl
  | cons e rest ih => simpa [runEvents] using ih (applyEvent s e)


/-! Frame lemmas: fields each mutator leaves untouched (or bounds on the
active-target count). -/

theorem setLevel_score (s : GameState) (n : ℕ) : (setLevel s n).score = s.score := by
  simp only [setLevel, apply_ite GameState.score, ite_self]

theorem setLevel_time (s : GameState) (n : ℕ) :
    (setLevel s n).timeRemainingMs = s.timeRemainingMs := by
  simp only [setLevel, apply_ite GameState.timeRemainingMs, ite_self]

theorem setLevel_elapsed (s : GameState) (n : ℕ) : (setLevel s n).elapsedMs = s.elapsedMs := by
  simp only [setLevel, apply_ite GameState.elapsedMs, ite_self]

theorem setLevel_ncp (s : GameState) (n : ℕ) :
    (setLevel s n).nextCheckpointAtMs = s.nextCheckpointAtMs := by
  simp only [setLevel, apply_ite GameState.nextCheckpointAtMs, ite_self]

theorem setLevel_run (s : GameState) (n : ℕ) : (setLevel s n).isRunning = s.isRunning := by
  simp only [setLevel, apply_ite GameState.isRunning, ite_self]

theorem setLevel_len (s : GameState) (n : ℕ) :
    (setLevel s n).activeMoles.length ≤ s.activeMoles.length := by
  simp only [setLevel, apply_ite GameState.activeMoles]
  split <;> simp

theorem evaluateCheckpoint_score (s : GameState) :
    (evaluateCheckpoint s).score = s.score := by
  simp only [evaluateCheckpoint, apply_ite GameState.score, setLevel_score, ite_self]

theorem evaluateCheckpoint_elapsed (s : GameState) :
    (evaluateCheckpoint s).elapsedMs = s.elapsedMs := by
  simp only [evaluateCheckpoint, apply_ite GameState.elapsedMs, setLevel_elapsed, ite_self]

theorem evaluateCheckpoint_ncp (s : GameState) :
    (evaluateCheckpoint s).nextCheckpointAtMs = s.nextCheckpointAtMs := by
  simp only [evaluateCheckpoint, apply_ite GameState.nextCheckpointAtMs, setLevel_ncp, ite_self]

theorem evaluateCheckpoint_run (s : GameState) :
    (evaluateCheckpoint s).isRunning = s.isRunning := by
  simp only [evaluateCheckpoint, apply_ite GameState.isRunning, setLevel_run, ite_self]

theorem length_ite_le {α : Type} {c : Prop} [Decidable c] {a b : List α} {n : ℕ}
    (ha : a.length ≤ n) (hb : b.length ≤ n) : (ite c a b).length ≤ n := by
  by_cases h : c <;> simp [h, ha, hb]

theorem evaluateCheckpoint_len (s : GameState) :
    (evaluateCheckpoint s).activeMoles.length ≤ s.activeMoles.length := by
  simp only [evaluateCheckpoint, apply_ite GameState.activeMoles]
  exact length_ite_le (setLevel_len _ _) le_rfl

theorem ite_time_bounds (t M b : ℚ) (h : t ≤ M) :
    t ≤ (if b > 0 then min M (t + b) else t) ∧
      (if b > 0 then min M (t + b) else t) ≤ M := by
  by_cases hc : b > 0
  · simp only [hc, if_true]
    exact ⟨le_min h (by linarith), min_le_left _ _⟩
  · simp only [hc, if_false]
    exact ⟨le_rfl, h⟩

theorem evaluateCheckpoint_time (s : GameState) (h : s.timeRemainingMs ≤ MAX_TIME_MS) :
    s.timeRemainingMs ≤ (evaluateCheckpoint s).timeRemainingMs ∧
      (evaluateCheckpoint s).timeRemainingMs ≤ MAX_TIME_MS := by
  simp only [evaluateCheckpoint, apply_ite GameState.timeRemainingMs, setLevel_time, ite_self]
  exact ite_time_bounds _ _ _ h


theorem registerMiss_score (s : GameState) (b : Bool) : (registerMiss s b).score = s.score := rfl

theorem registerMiss_time (s : GameState) (b : Bool) :
    (registerMiss s b).timeRemainingMs = s.timeRemainingMs := rfl

theorem registerMiss_elapsed (s : GameState) (b : Bool) :
    (registerMiss s b).elapsedMs = s.elapsedMs := rfl

theorem registerMiss_ncp (s : GameState) (b : Bool) :
    (registerMiss s b).nextCheckpointAtMs = s.nextCheckpointAtMs := rfl

theorem registerMiss_moles (s : GameState) (b : Bool) :
    (registerMiss s b).activeMoles = s.activeMoles := rfl

theorem registerMiss_run (s : GameState) (b : Bool) :
    (registerMiss s b).isRunning = s.isRunning := rfl

theorem applyMisses_score (n : ℕ) : ∀ s : GameState, (applyMisses n s).score = s.score := by
  induction n with
  | zero => intro s; rfl
  | succ k ih => intro s; rw [applyMisses, ih, registerMiss_score]

theorem applyMisses_time (n : ℕ) :
    ∀ s : GameState, (applyMisses n s).timeRemainingMs = s.timeRemainingMs := by
  induction n with
  | zero => intro s; rfl
  | succ k ih => intro s; rw [applyMisses, ih, registerMiss_time]

theorem applyMisses_elapsed (n : ℕ) :
    ∀ s : GameState, (applyMisses n s).elapsedMs = s.elapsedMs := by
  induction n with
  | zero => intro s; rfl
  | succ k ih => intro s; rw [applyMisses, ih, registerMiss_elapsed]

theorem applyMisses_ncp (n : ℕ) :
    ∀ s : GameState, (applyMisses n s).nextCheckpointAtMs = s.nextCheckpointAtMs := by
  induction n with
  | zero => intro s; rfl
  | succ k ih => intro s; rw [applyMisses, ih, registerMiss_ncp]

theorem applyMisses_moles (n : ℕ) :
    ∀ s : GameState, (applyMisses n s).activeMoles = s.activeMoles := by
  induction n with
  | zero => intro s; rfl
  | succ k ih => intro s; rw [applyMisses, ih, registerMiss_moles]

theorem applyMisses_run (n : ℕ) :
    ∀ s : GameState, (applyMisses n s).isRunning = s.isRunning := by
  induction n with
  | zero => intro s; rfl
  | succ k ih => intro s; rw [applyMisses, ih, registerMiss_run]

theorem updateMoles_score (d : ℚ) (s : GameState) : (updateMoles d s).score = s.score := by
  rw [updateMoles, applyMisses_score]

theorem updateMoles_time (d : ℚ) (s : GameState) :
    (updateMoles d s).timeRemainingMs = s.timeRemainingMs := by
  rw [updateMoles, applyMisses_time]

theorem updateMoles_elapsed (d : ℚ) (s : GameState) :
    (updateMoles d s).elapsedMs = s.elapsedMs := by
  rw [updateMoles, applyMisses_elapsed]

theorem updateMoles_ncp (d : ℚ) (s : GameState) :
    (updateMoles d s).nextCheckpointAtMs = s.nextCheckpointAtMs := by
  rw [updateMoles, applyMisses_ncp]

theorem updateMoles_run (d : ℚ) (s : GameState) :
    (updateMoles d s).isRunning = s.isRunning := by
  rw [updateMoles, applyMisses_run]

theorem updateMoles_len (d : ℚ) (s : GameState) :
    (updateMoles d s).activeMoles.length ≤ s.activeMoles.length := by
  rw [updateMoles, applyMisses_moles]
  calc ((s.activeMoles.map (updateMole1 d)).filterMap Prod.fst).length
      ≤ (s.activeMoles.map (updateMole1 d)).length := List.length_filterMap_le _ _
    _ = s.activeMoles.length := List.length_map _ _

theorem spawnSingleMole_score (p : DifficultyProfile) (s : GameState) :
    ((spawnSingleMole p s).2).score = s.score := by
  simp only [spawnSingleMole]; split <;> rfl

theorem spawnSingleMole_time (p : DifficultyProfile) (s : GameState) :
    ((spawnSingleMole p s).2).timeRemainingMs = s.timeRemainingMs := by
  simp only [spawnSingleMole]; split <;> rfl

theorem spawnSingleMole_elapsed (p : DifficultyProfile) (s : GameState) :
    ((spawnSingleMole p s).2).elapsedMs = s.elapsedMs := by
  simp only [spawnSingleMole]; split <;> rfl

theorem spawnSingleMole_ncp (p : DifficultyProfile) (s : GameState) :
    ((spawnSingleMole p s).2).nextCheckpointAtMs = s.nextCheckpointAtMs := by
  simp only [spawnSingleMole]; split <;> rfl

theorem spawnSingleMole_run (p : DifficultyProfile) (s : GameState) :
    ((spawnSingleMole p s).2).isRunning = s.isRunning := by
  simp only [spawnSingleMole]; split <;> rfl

theorem spawnSingleMole_len (p : DifficultyProfile) (s : GameState) :
    ((spawnSingleMole p s).2).activeMoles.length ≤ s.activeMoles.length + 1 := by
  simp only [spawnSingleMole]; split <;> simp

theorem spawnLoop_score (p : DifficultyProfile) (fuel : ℕ) :
    ∀ s : GameState, (spawnLoop p fuel s).score = s.score := by
  induction fuel with
  | zero => intro s; rfl
  | succ k ih =>
    intro s
    simp only [spawnLoop]
    split
    · split
      · rw [ih]; exact spawnSingleMole_score p s
      · exact spawnSingleMole_score p s
    · rfl

theorem spawnLoop_time (p : DifficultyProfile) (fuel : ℕ) :
    ∀ s : GameState, (spawnLoop p fuel s).timeRemainingMs = s.timeRemainingMs := by
  induction fuel with
  | zero => intro s; rfl
  | succ k ih =>
    intro s
    simp only [spawnLoop]
    split
    · split
      · rw [ih]; exact spawnSingleMole_time p s
      · exact spawnSingleMole_time p s
    · rfl

theorem spawnLoop_elapsed (p : DifficultyProfile) (fuel : ℕ) :
    ∀ s : GameState, (spawnLoop p fuel s).elapsedMs = s.elapsedMs := by
  induction fuel with
  | zero => intro s; rfl
  | succ k ih =>
    intro s
    simp only [spawnLoop]
    split
    · split
      · rw [ih]; exact spawnSingleMole_elapsed p s
      · exact spawnSingleMole_elapsed p s
    · rfl

theorem spawnLoop_ncp (p : DifficultyProfile) (fuel : ℕ) :
    ∀ s : GameState, (spawnLoop p fuel s).nextCheckpointAtMs = s.nextCheckpointAtMs := by
  induction fuel with
  | zero => intro s; rfl
  | succ k ih =>
    intro s
    simp only [spawnLoop]
    split
    · split
      · rw [ih]; exact spawnSingleMole_ncp p s
      · exact spawnSingleMole_ncp p s
    · rfl

theorem spawnLoop_run (p : DifficultyProfile) (fuel : ℕ) :
    ∀ s : GameState, (spawnLoop p fuel s).isRunning = s.isRunning := by
  induction fuel with
  | zero => intro s; rfl
  | succ k ih =>
    intro s
    simp only [spawnLoop]
    split
    · split
      · rw [ih]; exact spawnSingleMole_run p s
      · exact spawnSingleMole_run p s
    · rfl

theorem spawnLoop_len3 (p : DifficultyProfile) (hp : p.concurrentMax ≤ 3) (fuel : ℕ) :
    ∀ s : GameState, s.activeMoles.length ≤ 3 → (spawnLoop p fuel s).activeMoles.length ≤ 3 := by
  induction fuel with
  | zero => intro s h; exact h
  | succ k ih =>
    intro s h
    simp only [spawnLoop]
    split
    · rename_i hg
      have hlt : s.activeMoles.length + 1 ≤ 3 := by
        have h2 : (s.activeMoles.length : ℤ) < p.concurrentMax := hg.2
        omega
      split
      · exact ih _ (le_trans (spawnSingleMole_len p s) hlt)
      · exact le_trans (spawnSingleMole_len p s) hlt
    · exact h

theorem getDifficultyProfile_cmax_le3 (s : GameState) :
    (getDifficultyProfile s).concurrentMax ≤ 3 := by
  simp only [getDifficultyProfile, clampZ]
  exact min_le_left _ _

theorem spawnMolesIfNeeded_score (s : GameState) : (spawnMolesIfNeeded s).score = s.score := by
  simp only [spawnMolesIfNeeded]
  split
  · rfl
  · exact spawnLoop_score _ _ s

theorem spawnMolesIfNeeded_time (s : GameState) :
    (spawnMolesIfNeeded s).timeRemainingMs = s.timeRemainingMs := by
  simp only [spawnMolesIfNeeded]
  split
  · rfl
  · exact spawnLoop_time _ _ s

theorem spawnMolesIfNeeded_elapsed (s : GameState) :
    (spawnMolesIfNeeded s).elapsedMs = s.elapsedMs := by
  simp only [spawnMolesIfNeeded]
  split
  · rfl
  · exact spawnLoop_elapsed _ _ s

theorem spawnMolesIfNeeded_ncp (s : GameState) :
    (spawnMolesIfNeeded s).nextCheckpointAtMs = s.nextCheckpointAtMs := by
  simp only [spawnMolesIfNeeded]
  split
  · rfl
  · exact spawnLoop_ncp _ _ s

theorem spawnMolesIfNeeded_run (s : GameState) :
    (spawnMolesIfNeeded s).isRunning = s.isRunning := by
  simp only [spawnMolesIfNeeded]
  split
  · rfl
  · exact spawnLoop_run _ _ s

theorem spawnMolesIfNeeded_len3 (s : GameState) (h : s.activeMoles.length ≤ 3) :
    (spawnMolesIfNeeded s).activeMoles.length ≤ 3 := by
  simp only [spawnMolesIfNeeded]
  split
  · exact h
  · exact spawnLoop_len3 _ (getDifficultyProfile_cmax_le3 s) _ s h

theorem checkpointLoop_score (fuel : ℕ) :
    ∀ s : GameState, (checkpointLoop fuel s).score = s.score := by
  induction fuel with
  | zero => intro s; rfl
  | succ k ih =>
    intro s
    simp only [checkpointLoop]
    split
    · rw [ih]; exact evaluateCheckpoint_score s
    · rfl

theorem checkpointLoop_elapsed (fuel : ℕ) :
    ∀ s : GameState, (checkpointLoop fuel s).elapsedMs = s.elapsedMs := by
  induction fuel with
  | zero => intro s; rfl
  | succ k ih =>
    intro s
    simp only [checkpointLoop]
    split
    · rw [ih]; exact evaluateCheckpoint_elapsed s
    · rfl

theorem checkpointLoop_run (fuel : ℕ) :
    ∀ s : GameState, (checkpointLoop fuel s).isRunning = s.isRunning := by
  induction fuel with
  | zero => intro s; rfl
  | succ k ih =>
    intro s
    simp only [checkpointLoop]
    split
    · rw [ih]; exact evaluateCheckpoint_run s
    · rfl

theorem checkpointLoop_len (fuel : ℕ) :
    ∀ s : GameState, (checkpointLoop fuel s).activeMoles.length ≤ s.activeMoles.length := by
  induction fuel with
  | zero => intro s; exact le_rfl
  | succ k ih =>
    intro s
    simp only [checkpointLoop]
    split
    · exact le_trans (ih _) (evaluateCheckpoint_len s)
    · exact le_rfl

theorem checkpointLoop_time (fuel : ℕ) :
    ∀ s : GameState, s.timeRemainingMs ≤ MAX_TIME_MS →
      s.timeRemainingMs ≤ (checkpointLoop fuel s).timeRemainingMs ∧
        (checkpointLoop fuel s).timeRemainingMs ≤ MAX_TIME_MS := by
  induction fuel with
  | zero => intro s h; exact ⟨le_rfl, h⟩
  | succ k ih =>
    intro s h
    simp only [checkpointLoop]
    split
    · have h1 := evaluateCheckpoint_time s h
      have h2 := ih { evaluateCheckpoint s with
        nextCheckpointAtMs := s.nextCheckpointAtMs + CHECKPOINT_MS } h1.2
      exact ⟨le_trans h1.1 h2.1, h2.2⟩
    · exact ⟨le_rfl, h⟩

theorem runCheckpointIfNeeded_score (s : GameState) :
    (runCheckpointIfNeeded s).score = s.score := checkpointLoop_score _ s

theorem runCheckpointIfNeeded_elapsed (s : GameState) :
    (runCheckpointIfNeeded s).elapsedMs = s.elapsedMs := checkpointLoop_elapsed _ s

theorem runCheckpointIfNeeded_run (s : GameState) :
    (runCheckpointIfNeeded s).isRunning = s.isRunning := checkpointLoop_run _ s

theorem runCheckpointIfNeeded_len (s : GameState) :
    (runCheckpointIfNeeded s).activeMoles.length ≤ s.activeMoles.length :=
  checkpointLoop_len _ s

theorem runCheckpointIfNeeded_time (s : GameState) (h : s.timeRemainingMs ≤ MAX_TIME_MS) :
    s.timeRemainingMs ≤ (runCheckpointIfNeeded s).timeRemainingMs ∧
      (runCheckpointIfNeeded s).timeRemainingMs ≤ MAX_TIME_MS := checkpointLoop_time _ s h

theorem runCheckpointIfNeeded_not_due (s : GameState)
    (h : s.elapsedMs < s.nextCheckpointAtMs) : runCheckpointIfNeeded s = s := by
  rw [runCheckpointIfNeeded]
  rcases hf : checkpointFuel s with _ | k
  · rfl
  · simp only [checkpointLoop]
    rw [if_neg (not_le.mpr h)]

theorem updatePromotionState_score (s : GameState) (d : ℚ) :
    (updatePromotionState s d).score = s.score := by
  simp only [updatePromotionState, apply_ite GameState.score, setLevel_score, ite_self]

theorem updatePromotionState_elapsed (s : GameState) (d : ℚ) :
    (updatePromotionState s d).elapsedMs = s.elapsedMs := by
  simp only [updatePromotionState, apply_ite GameState.elapsedMs, setLevel_elapsed, ite_self]

theorem updatePromotionState_ncp (s : GameState) (d : ℚ) :
    (updatePromotionState s d).nextCheckpointAtMs = s.nextCheckpointAtMs := by
  simp only [updatePromotionState, apply_ite GameState.nextCheckpointAtMs, setLevel_ncp, ite_self]

theorem updatePromotionState_run (s : GameState) (d : ℚ) :
    (updatePromotionState s d).isRunning = s.isRunning := by
  simp only [updatePromotionState, apply_ite GameState.isRunning, setLevel_run, ite_self]

theorem updatePromotionState_len (s : GameState) (d : ℚ) :
    (updatePromotionState s d).activeMoles.length ≤ s.activeMoles.length := by
  simp only [updatePromotionState, apply_ite GameState.activeMoles]
  refine length_ite_le le_rfl (length_ite_le (by simp) (length_ite_le le_rfl le_rfl))

theorem updateStageTransitionLock_score (s : GameState) (d : ℚ) :
    (updateStageTransitionLock s d).score = s.score := by
  simp only [updateStageTransitionLock, apply_ite GameState.score, ite_self]

theorem updateStageTransitionLock_time (s : GameState) (d : ℚ) :
    (updateStageTransitionLock s d).timeRemainingMs = s.timeRemainingMs := by
  simp only [updateStageTransitionLock, apply_ite GameState.timeRemainingMs, ite_self]

theorem updateStageTransitionLock_elapsed (s : GameState) (d : ℚ) :
    (updateStageTransitionLock s d).elapsedMs = s.elapsedMs := by
  simp only [updateStageTransitionLock, apply_ite GameState.elapsedMs, ite_self]

theorem updateStageTransitionLock_moles (s : GameState) (d : ℚ) :
    (updateStageTransitionLock s d).activeMoles = s.activeMoles := by
  simp only [updateStageTransitionLock, apply_ite GameState.activeMoles, ite_self]

theorem updateStageTransitionLock_run (s : GameState) (d : ℚ) :
    (updateStageTransitionLock s d).isRunning = s.isRunning := by
  simp only [updateStageTransitionLock, apply_ite GameState.isRunning, ite_self]

theorem updateLevelEntryEase_score (s : GameState) (d : ℚ) :
    (updateLevelEntryEase s d).score = s.score := by
  simp only [updateLevelEntryEase]
  split
  · rfl
  · split
    · rfl
    · split <;> rfl

theorem updateLevelEntryEase_time (s : GameState) (d : ℚ) :
    (updateLevelEntryEase s d).timeRemainingMs = s.timeRemainingMs := by
  simp only [updateLevelEntryEase]
  split
  · rfl
  · split
    · rfl
    · split <;> rfl

theorem updateLevelEntryEase_elapsed (s : GameState) (d : ℚ) :
    (updateLevelEntryEase s d).elapsedMs = s.elapsedMs := by
  simp only [updateLevelEntryEase]
  split
  · rfl
  · split
    · rfl
    · split <;> rfl

theorem updateLevelEntryEase_ncp (s : GameState) (d : ℚ) :
    (updateLevelEntryEase s d).nextCheckpointAtMs = s.nextCheckpointAtMs := by
  simp only [updateLevelEntryEase]
  split
  · rfl
  · split
    · rfl
    · split <;> rfl

theorem updateLevelEntryEase_moles (s : GameState) (d : ℚ) :
    (updateLevelEntryEase s d).activeMoles = s.activeMoles := by
  simp only [updateLevelEntryEase]
  split
  · rfl
  · split
    · rfl
    · split <;> rfl

theorem updateLevelEntryEase_run (s : GameState) (d : ℚ) :
    (updateLevelEntryEase s d).isRunning = s.isRunning := by
  simp only [updateLevelEntryEase]
  split
  · rfl
  · split
    · rfl
    · split <;> rfl

theorem endGame_score (s : GameState) : (endGame s).score = s.score := rfl

theorem endGame_time (s : GameState) :
    (endGame s).timeRemainingMs = s.timeRemainingMs := rfl

theorem endGame_elapsed (s : GameState) : (endGame s).elapsedMs = s.elapsedMs := rfl

theorem endGame_moles (s : GameState) : (endGame s).activeMoles = s.activeMoles := rfl

theorem registerHit_score_nonneg (s : GameState) (i : ℕ) (h : 0 ≤ s.score) :
    0 ≤ (registerHit s i).score := by
  simp only [registerHit]
  split
  · exact h
  · split
    · exact h
    · split
      · exact h
      · exact le_max_left 0 _

theorem registerHit_len (s : GameState) (i : ℕ) :
    (registerHit s i).activeMoles.length = s.activeMoles.length := by
  simp only [registerHit]
  split
  · rfl
  · split
    · rfl
    · split
      · rfl
      · simp

theorem update_score (s : GameState) (d : ℚ) : (update s d).score = s.score := by
  simp only [update, apply_ite GameState.score, updateStageTransitionLock_score,
    updatePromotionState_score, updateLevelEntryEase_score, updateMoles_score,
    spawnMolesIfNeeded_score, runCheckpointIfNeeded_score, endGame_score, ite_self]

theorem update_elapsed (s : GameState) (d : ℚ) : (update s d).elapsedMs = s.elapsedMs + d := by
  simp only [update, apply_ite GameState.elapsedMs, updateStageTransitionLock_elapsed,
    updatePromotionState_elapsed, updateLevelEntryEase_elapsed, updateMoles_elapsed,
    spawnMolesIfNeeded_elapsed, runCheckpointIfNeeded_elapsed, endGame_elapsed, ite_self]

theorem update_len3 (s : GameState) (d : ℚ) (h : s.activeMoles.length ≤ 3) :
    (update s d).activeMoles.length ≤ 3 := by
  simp only [update]
  split
  · rw [updateStageTransitionLock_moles]; simpa using h
  · have hY : ∀ Z : GameState, Z.activeMoles.length ≤ 3 →
        (if Z.stageTransitionLockMs > 0 then Z
         else
           if (runCheckpointIfNeeded (spawnMolesIfNeeded (updateMoles d
               (updateLevelEntryEase Z d)))).timeRemainingMs ≤ 0 then
             endGame (runCheckpointIfNeeded (spawnMolesIfNeeded (updateMoles d
               (updateLevelEntryEase Z d))))
           else runCheckpointIfNeeded (spawnMolesIfNeeded (updateMoles d
             (updateLevelEntryEase Z d)))).activeMoles.length ≤ 3 := by
      intro Z hZ
      have hrc : (runCheckpointIfNeeded (spawnMolesIfNeeded (updateMoles d
          (updateLevelEntryEase Z d)))).activeMoles.length ≤ 3 :=
        le_trans (runCheckpointIfNeeded_len _)
          (spawnMolesIfNeeded_len3 _ (le_trans (updateMoles_len _ _)
            (by rw [updateLevelEntryEase_moles]; exact hZ)))
      split
      · exact hZ
      · split
        · rw [endGame_moles]; exact hrc
        · exact hrc
    apply hY
    refine le_trans (updatePromotionState_len _ d) ?_
    rw [apply_ite GameState.activeMoles]
    refine length_ite_le ?_ ?_ <;> simpa using h

theorem applyEvent_score_nonneg (s : GameState) (e : GEvent) (h : 0 ≤ s.score) :
    0 ≤ (applyEvent s e).score := by
  rcases e with d | i | _
  · simp only [applyEvent]
    split
    · split
      · exact h
      · rw [update_score]; exact h
    · exact h
  · simp only [applyEvent]
    split
    · split
      · split
        · exact registerHit_score_nonneg s i h
        · rw [registerMiss_score]; exact h
      · rw [registerMiss_score]; exact h
    · exact h
  · simp only [applyEvent]
    split
    · rw [registerMiss_score]; exact h
    · exact h

theorem applyEvent_len3 (s : GameState) (e : GEvent) (h : s.activeMoles.length ≤ 3) :
    (applyEvent s e).activeMoles.length ≤ 3 := by
  rcases e with d | i | _
  · simp only [applyEvent]
    split
    · split
      · exact h
      · exact update_len3 s _ h
    · exact h
  · simp only [applyEvent]
    split
    · split
      · split
        · rw [registerHit_len]; exact h
        · rw [registerMiss_moles]; exact h
      · rw [registerMiss_moles]; exact h
    · exact h
  · simp only [applyEvent]
    split
    · rw [registerMiss_moles]; exact h
    · exact h

theorem runEvents_score_nonneg (events : List GEvent) :
    ∀ s : GameState, 0 ≤ s.score → 0 ≤ (runEvents s events).score := by
  induction events with
  | nil => intro s h; exact h
  | cons e rest ih => intro s h; exact ih _ (applyEvent_score_nonneg s e h)

theorem runEvents_len3 (events : List GEvent) :
    ∀ s : GameState, s.activeMoles.length ≤ 3 →
      (runEvents s events).activeMoles.length ≤ 3 := by
  induction events with
  | nil => intro s h; exact h
  | cons e rest ih => intro s h; exact ih _ (applyEvent_len3 s e h)

theorem updatePromotionState_ofNone (s : GameState) (d : ℚ)
    (h : s.promotionState = PromotionState.noneSt) : updatePromotionState s d = s := by
  rw [updatePromotionState, if_pos h]

theorem updatePromotionState_pending_frame (s : GameState) (d : ℚ)
    (hp : s.promotionState = PromotionState.pending)
    (hd : s.promotionElapsedMs + d < getPendingDurationMs s) :
    updatePromotionState s d = { s with promotionElapsedMs := s.promotionElapsedMs + d } := by
  rw [updatePromotionState,
    if_neg (show ¬s.promotionState = PromotionState.noneSt by rw [hp]; decide),
    if_neg (fun hc => absurd hc.2 (not_le.mpr hd)),
    if_neg (fun hc => by rw [hp] at hc; exact absurd hc.1 (by decide))]

theorem update_time_pending (s : GameState) (d : ℚ)
    (hlock : s.stageTransitionLockMs ≤ 0) (hmax : s.timeRemainingMs ≤ MAX_TIME_MS)
    (hp : s.promotionState = PromotionState.pending)
    (hd : s.promotionElapsedMs + d < getPendingDurationMs s) :
    s.timeRemainingMs ≤ (update s d).timeRemainingMs := by
  have tail : ∀ Z : GameState, Z.timeRemainingMs = s.timeRemainingMs →
      ¬(Z.stageTransitionLockMs > 0) →
      s.timeRemainingMs ≤
        (if Z.stageTransitionLockMs > 0 then Z
         else
           if (runCheckpointIfNeeded (spawnMolesIfNeeded (updateMoles d
               (updateLevelEntryEase Z d)))).timeRemainingMs ≤ 0 then
             endGame (runCheckpointIfNeeded (spawnMolesIfNeeded (updateMoles d
               (updateLevelEntryEase Z d))))
           else runCheckpointIfNeeded (spawnMolesIfNeeded (updateMoles d
             (updateLevelEntryEase Z d)))).timeRemainingMs := by
    intro Z hZt hZl
    have hsp : (spawnMolesIfNeeded (updateMoles d
        (updateLevelEntryEase Z d))).timeRemainingMs = s.timeRemainingMs := by
      rw [spawnMolesIfNeeded_time, updateMoles_time, updateLevelEntryEase_time, hZt]
    have hmono := runCheckpointIfNeeded_time
      (spawnMolesIfNeeded (updateMoles d (updateLevelEntryEase Z d)))
      (by rw [hsp]; exact hmax)
    rw [if_neg hZl, apply_ite GameState.timeRemainingMs, endGame_time, ite_self]
    calc s.timeRemainingMs
        = (spawnMolesIfNeeded (updateMoles d
            (updateLevelEntryEase Z d))).timeRemainingMs := hsp.symm
      _ ≤ _ := hmono.1
  simp only [update]
  rw [if_neg (show ¬({s with elapsedMs := s.elapsedMs + d} :
      GameState).stageTransitionLockMs > 0 by simpa using not_lt.mpr hlock)]
  rw [if_neg (show ¬({s with elapsedMs := s.elapsedMs + d} :
      GameState).promotionState ≠ PromotionState.pending by simpa using hp)]
  rw [updatePromotionState_pending_frame _ d (by simpa using hp)
    (by simpa [getPendingDurationMs] using hd)]
  exact tail _ (by simp) (by simpa using not_lt.mpr hlock)

theorem update_time_resumed (s : GameState) (d : ℚ)
    (hlock : s.stageTransitionLockMs ≤ 0) (hp : s.promotionState = PromotionState.noneSt)
    (hcp : s.elapsedMs + d < s.nextCheckpointAtMs) :
    (update s d).timeRemainingMs = max 0 (s.timeRemainingMs - d) := by
  have tail2 : ∀ Z : GameState, ¬(Z.stageTransitionLockMs > 0) →
      Z.elapsedMs < Z.nextCheckpointAtMs →
      (if Z.stageTransitionLockMs > 0 then Z
       else
         if (runCheckpointIfNeeded (spawnMolesIfNeeded (updateMoles d
             (updateLevelEntryEase Z d)))).timeRemainingMs ≤ 0 then
           endGame (runCheckpointIfNeeded (spawnMolesIfNeeded (updateMoles d
             (updateLevelEntryEase Z d))))
         else runCheckpointIfNeeded (spawnMolesIfNeeded (updateMoles d
           (updateLevelEntryEase Z d)))).timeRemainingMs = Z.timeRemainingMs := by
    intro Z hZl hZcp
    have hrc : runCheckpointIfNeeded (spawnMolesIfNeeded (updateMoles d
        (updateLevelEntryEase Z d))) =
        spawnMolesIfNeeded (updateMoles d (updateLevelEntryEase Z d)) :=
      runCheckpointIfNeeded_not_due _
        (by rw [spawnMolesIfNeeded_elapsed, updateMoles_elapsed, updateLevelEntryEase_elapsed,
          spawnMolesIfNeeded_ncp, updateMoles_ncp, updateLevelEntryEase_ncp]; exact hZcp)
    rw [if_neg hZl, apply_ite GameState.timeRemainingMs, endGame_time, ite_self, hrc,
      spawnMolesIfNeeded_time, updateMoles_time, updateLevelEntryEase_time]
  simp only [update]
  rw [if_neg (show ¬({s with elapsedMs := s.elapsedMs + d} :
      GameState).stageTransitionLockMs > 0 by simpa using not_lt.mpr hlock)]
  rw [if_pos (show ({s with elapsedMs := s.elapsedMs + d} :
      GameState).promotionState ≠ PromotionState.pending by simp [hp])]
  rw [updatePromotionState_ofNone _ d (by simpa using hp)]
  rw [tail2 _ (by simpa using not_lt.mpr hlock) (by simpa using hcp)]

/-- C1 counterexample: in a state whose slow status is active the slow factor
reads 1.35, yet the target spawned there gets its randomized exposed duration
scaled by 1.2 (1200ms base becomes 1440ms), not by the claimed 1.35. -/
theorem C1_counterexample :
    getSlowFactor c1S = 1.35 ∧
      (spawnSingleMole (getDifficultyProfile c1S) c1S).1 = true ∧
      (spawnSingleMole (getDifficultyProfile c1S) c1S).2.activeMoles.map
        ActiveMole.idleDurationMs = [1200 * 1.2] ∧
      (1200 * 1.2 : ℚ) ≠ 1200 * 1.35 := by
  refine ⟨by with_unfolding_all rfl, by with_unfolding_all rfl, by with_unfolding_all rfl, by norm_num⟩

theorem idleScaleFor_slow (t : MoleType) : idleScaleFor t 1.35 = idleScaleFor t 1 * 1.2 := by
  simp only [idleScaleFor]
  rw [if_pos (by norm_num : (1.35 : ℚ) > 1), if_neg (by norm_num : ¬ ((1 : ℚ) > 1))]

/-- C1 amended: every target created while the slow status is active has its
randomized exposed (idle) duration scaled upward by 1.2x on top of the
category idle scale; the 1.35 slow factor itself is only tested against 1
here. -/
theorem C1_amended_slow_idle_scale (profile : DifficultyProfile) (s : GameState)
    (hslow : s.elapsedMs < s.slowUntilMs) (hc : ¬ spawnCandidates s = []) :
    ∃ m : ActiveMole, (spawnSingleMole profile s).2.activeMoles = s.activeMoles ++ [m] ∧
      m.idleDurationMs =
        randomBetween profile.holdMinMs profile.holdMaxMs (s.rng.getD 3 0) *
          (idleScaleFor (pickMoleType s (s.rng.getD 1 0)) 1 * 1.2) := by
  simp only [spawnSingleMole]
  rw [if_neg hc]
  refine ⟨_, rfl, ?_⟩
  show randomBetween profile.holdMinMs profile.holdMaxMs (s.rng.getD 3 0) *
      idleScaleFor (pickMoleType s (s.rng.getD 1 0)) (getSlowFactor s) = _
  have hs : getSlowFactor s = 1.35 := by rw [getSlowFactor, if_pos hslow]
  rw [hs, idleScaleFor_slow]

/-- C3 counterexample: in c3S the active-target count (0) is below the
concurrency floor (1), a spawn occurs, yet the next spawn attempt keeps the
previous schedule (300ms) instead of the current simulated time (400ms). -/
theorem C3_counterexample :
    ((c3S.activeMoles.length : ℤ) < (getDifficultyProfile c3S).concurrentMin) ∧
      (spawnSingleMole (getDifficultyProfile c3S) c3S).1 = true ∧
      (spawnSingleMole (getDifficultyProfile c3S) c3S).2.nextSpawnAtMs = c3S.nextSpawnAtMs ∧
      c3S.nextSpawnAtMs ≠ c3S.elapsedMs := by
  refine ⟨by with_unfolding_all decide, by with_unfolding_all rfl, by with_unfolding_all rfl, ?_⟩
  show (300 : ℚ) ≠ 400
  norm_num

/-- C3 amended: spawnSingleMole rebases the next spawn time to the current
simulated time exactly when the active-target count is below
concurrentMin - 1 (not concurrentMin); otherwise the previous schedule is
kept. -/
theorem C3_amended_reschedule_threshold (profile : DifficultyProfile) (s : GameState)
    (hc : ¬ spawnCandidates s = []) :
    (spawnSingleMole profile s).2.nextSpawnAtMs =
      if (s.activeMoles.length : ℤ) < profile.concurrentMin - 1 then s.elapsedMs
      else s.nextSpawnAtMs := by
  simp only [spawnSingleMole]
  rw [if_neg hc]

/-- C4 counterexample: at the level-1 start-of-tier state the adjusted chill
weight is exactly 0, so not every post-adjustment weight is strictly above
zero. -/
theorem C4_counterexample :
    (pickMoleTypeWeights c4S).2.2.2 = 0 ∧ ¬ (0 < (pickMoleTypeWeights c4S).2.2.2) := by
  have h : (pickMoleTypeWeights c4S).2.2.2 = 0 := by with_unfolding_all rfl
  exact ⟨h, by rw [h]; exact lt_irrefl 0⟩

/-- C4 amended: the four adjusted category weights are floored at 1, 1/2,
1/5 and 0 respectively (the chill floor is only non-negative), and their
total is strictly positive, keeping the lottery well-defined. -/
theorem C4_amended_weight_floors (s : GameState) :
    1 ≤ (pickMoleTypeWeights s).1 ∧ 1/2 ≤ (pickMoleTypeWeights s).2.1 ∧
      1/5 ≤ (pickMoleTypeWeights s).2.2.1 ∧ 0 ≤ (pickMoleTypeWeights s).2.2.2 ∧
      0 < (pickMoleTypeWeights s).1 + (pickMoleTypeWeights s).2.1 +
        (pickMoleTypeWeights s).2.2.1 + (pickMoleTypeWeights s).2.2.2 := by
  have h1 : 1 ≤ (pickMoleTypeWeights s).1 := by
    simp only [pickMoleTypeWeights]; exact le_max_left _ _
  have h2 : (1/2 : ℚ) ≤ (pickMoleTypeWeights s).2.1 := by
    simp only [pickMoleTypeWeights]
    refine le_trans (by norm_num) (le_max_left _ _)
  have h3 : (1/5 : ℚ) ≤ (pickMoleTypeWeights s).2.2.1 := by
    simp only [pickMoleTypeWeights]
    refine le_trans (by norm_num) (le_max_left _ _)
  have h4 : (0 : ℚ) ≤ (pickMoleTypeWeights s).2.2.2 := by
    simp only [pickMoleTypeWeights]; exact le_max_left _ _
  exact ⟨h1, h2, h3, h4, by linarith⟩

/-- C5: for every randomness stream and every event sequence from startGame,
the score is never negative. -/
theorem C5_score_never_negative (rng : List ℚ) (events : List GEvent) :
    0 ≤ (runEvents (initialState rng) events).score :=
  runEvents_score_nonneg events (initialState rng) (le_refl 0)

/-- C6: a hazard-category hit in an exposed or entering phase applies score
delta -3 with no combo multiplier, subtracts 2000ms from the time bank
(clamped at 0 below and the global maximum above), and resets the combo. -/
theorem C6_bomb_hit (s : GameState) (i : ℕ) (idx : ℕ) (m : ActiveMole)
    (h1 : s.activeMoles.findIdx? (fun a => a.id == i) = Option.some idx)
    (h2 : s.activeMoles.get? idx = Option.some m)
    (hph : m.phase = MolePhase.pop ∨ m.phase = MolePhase.idle)
    (hty : m.type = MoleType.bomb) :
    (registerHit s i).score = max 0 (s.score - 3) ∧
      (registerHit s i).timeRemainingMs = clamp (s.timeRemainingMs - 2000) 0 MAX_TIME_MS ∧
      (registerHit s i).combo = 0 := by
  have hj : jsRound ((-3 : ℚ) * 1) = -3 := by with_unfolding_all rfl
  have e1 : (if m.type = MoleType.gold then (3 : ℚ)
      else if m.type = MoleType.bomb then -3 else 1) = -3 := by
    rw [hty, if_neg (by decide), if_pos rfl]
  have e2 : (if m.type = MoleType.bomb then (-2000 : ℚ) else 0) = -2000 := by
    rw [hty, if_pos rfl]
  have e3 : (if m.type = MoleType.bomb then 0 else s.combo + 1) = 0 := by
    rw [hty, if_pos rfl]
  simp only [registerHit, h1, h2]
  rw [if_neg (not_not_intro hph)]
  refine ⟨?_, ?_, ?_⟩
  · show max 0 (s.score + jsRound _) = _
    rw [e1, if_neg (by norm_num : ¬ ((-3 : ℚ) > 0)), hj]
    congr 1
  · show clamp (s.timeRemainingMs + _) 0 MAX_TIME_MS = _
    rw [e2, show s.timeRemainingMs + (-2000 : ℚ) = s.timeRemainingMs - 2000 from by ring]
  · exact e3

/-- C7: a common hit increments the combo and adds the individually rounded
positive delta scaled by the post-increment combo multiplier; the tier table
gives 1, 1.2, 1.5, 2 at combos below 5, at 5, at 10 and at 15; five
consecutive common hits from combo 0 total score 5. -/
theorem C7_combo_multiplier (s : GameState) (i : ℕ) (idx : ℕ) (m : ActiveMole)
    (h1 : s.activeMoles.findIdx? (fun a => a.id == i) = Option.some idx)
    (h2 : s.activeMoles.get? idx = Option.some m)
    (hph : m.phase = MolePhase.pop ∨ m.phase = MolePhase.idle)
    (hty : m.type = MoleType.normal) :
    ((registerHit s i).combo = s.combo + 1 ∧
      (registerHit s i).score =
        max 0 (s.score + jsRound (1 * getComboMultiplier (s.combo + 1)))) ∧
      (getComboMultiplier 4 = 1 ∧ getComboMultiplier 5 = 1.2 ∧
        getComboMultiplier 10 = 1.5 ∧ getComboMultiplier 15 = 2) ∧
      (c7Final.score = 5 ∧ c7Final.combo = 5) := by
  have e1 : (if m.type = MoleType.gold then (3 : ℚ)
      else if m.type = MoleType.bomb then -3 else 1) = 1 := by
    rw [hty, if_neg (by decide), if_neg (by decide)]
  have e3 : (if m.type = MoleType.bomb then 0 else s.combo + 1) = s.combo + 1 := by
    rw [hty, if_neg (by decide)]
  refine ⟨?_, ⟨by with_unfolding_all rfl, by with_unfolding_all rfl, by with_unfolding_all rfl,
    by with_unfolding_all rfl⟩, by with_unfolding_all rfl, by with_unfolding_all rfl⟩
  simp only [registerHit, h1, h2]
  rw [if_neg (not_not_intro hph)]
  refine ⟨e3, ?_⟩
  show max 0 (s.score + jsRound _) = _
  rw [e1, if_pos (by norm_num : (1 : ℚ) > 0), e3]

/-- C8: the checkpoint performance index is a weighted sum of the accuracy,
speed and combo terms written from the specification text, with weights
summing to 1 and favouring accuracy most, then speed, then combo. -/
theorem C8_checkpoint_pi_weighted_sum :
    ∃ wa ws wc : ℚ, wa + ws + wc = 1 ∧ wc < ws ∧ ws < wa ∧
      ∀ (stats : IntervalStats) (combo : ℕ),
        checkpointPI stats combo =
          wa * accuracySpec stats + ws * speedSpec stats + wc * comboSpec combo := by
  refine ⟨0.45, 0.35, 0.2, by norm_num, by norm_num, by norm_num, ?_⟩
  intro stats combo
  rfl

/-- C9: a hit resolution that references a target whose phase is neither
entering nor exposed leaves the whole state unchanged, so neither the hit
count nor the miss count moves. -/
theorem C9_invalid_phase_hit_noop (s : GameState) (i : ℕ) (idx : ℕ) (m : ActiveMole)
    (h1 : s.activeMoles.findIdx? (fun a => a.id == i) = Option.some idx)
    (h2 : s.activeMoles.get? idx = Option.some m)
    (hph : ¬ (m.phase = MolePhase.pop ∨ m.phase = MolePhase.idle)) :
    registerHit s i = s := by
  simp only [registerHit, h1, h2]
  rw [if_pos hph]

/-- C10: while a promotion is pending, advancing the clock does not decrease
the time bank (checkpoints may still add bonuses); once the pending state
has resolved to none, decay resumes at full rate; the simulated clock always
advances by the delta. -/
theorem C10_pending_suspends_time_decay (s : GameState) (d : ℚ)
    (hlock : s.stageTransitionLockMs ≤ 0) :
    (s.promotionState = PromotionState.pending → s.timeRemainingMs ≤ MAX_TIME_MS →
        s.promotionElapsedMs + d < getPendingDurationMs s →
        s.timeRemainingMs ≤ (update s d).timeRemainingMs) ∧
      (s.promotionState = PromotionState.noneSt → s.elapsedMs + d < s.nextCheckpointAtMs →
        (update s d).timeRemainingMs = max 0 (s.timeRemainingMs - d)) ∧
      (update s d).elapsedMs = s.elapsedMs + d :=
  ⟨fun hp hmax hd => update_time_pending s d hlock hmax hp hd,
   fun hp hcp => update_time_resumed s d hlock hp hcp,
   update_elapsed s d⟩

/-- C2 counterexample: after the 1089-event trace c2Events from startGame,
the state holds 3 active targets while the difficulty profile in effect
reports a concurrency ceiling of 2, violating the claimed invariant. -/
theorem C2_counterexample :
    (runEvents (initialState c2Rng) c2Events).activeMoles.length = 3 ∧
      (getDifficultyProfile (runEvents (initialState c2Rng) c2Events)).concurrentMax = 2 := by
  have h : runEvents (initialState c2Rng) c2Events = c2State9 := by
    simp only [c2Events]
    rw [runEvents_append, runEvents_append, runEvents_append, runEvents_append,
      runEvents_append, runEvents_append, runEvents_append, runEvents_append,
      c2_chunk1, c2_chunk2, c2_chunk3, c2_chunk4, c2_chunk5, c2_chunk6, c2_chunk7,
      c2_chunk8, c2_chunk9]
  rw [h]
  exact ⟨by with_unfolding_all rfl, by with_unfolding_all rfl⟩

/-- C2 amended: the active-target count never exceeds the global cap 3, and
the spawner never acts when the count has reached the current ceiling; the
count can still transiently exceed a ceiling that has just decreased,
because existing targets are not despawned. -/
theorem C2_amended_cap_and_ceiling :
    (∀ (rng : List ℚ) (events : List GEvent),
        (runEvents (initialState rng) events).activeMoles.length ≤ 3) ∧
      ∀ s : GameState,
        (getDifficultyProfile s).concurrentMax ≤ (s.activeMoles.length : ℤ) →
          spawnMolesIfNeeded s = s := by
  constructor
  · intro rng events
    exact runEvents_len3 events _ (Nat.zero_le 3)
  · intro s h
    rw [spawnMolesIfNeeded]
    split
    · rfl
    · simp only [spawnLoop]
      rw [if_neg (fun hc => absurd hc.2 (not_lt.mpr h))]

/-- C1 witness: the amended statement applied to the concrete slow-active
state c1S. -/
theorem C1_amended_witness :
    c1S.elapsedMs < c1S.slowUntilMs ∧
      ∃ m : ActiveMole,
        (spawnSingleMole (getDifficultyProfile c1S) c1S).2.activeMoles =
          c1S.activeMoles ++ [m] ∧
        m.idleDurationMs =
          randomBetween (getDifficultyProfile c1S).holdMinMs (getDifficultyProfile c1S).holdMaxMs
            (c1S.rng.getD 3 0) *
            (idleScaleFor (pickMoleType c1S (c1S.rng.getD 1 0)) 1 * 1.2) := by
  have hslow : c1S.elapsedMs < c1S.slowUntilMs := of_decide_eq_true (by with_unfolding_all rfl)
  have hc : ¬ spawnCandidates c1S = [] := of_decide_eq_true (by with_unfolding_all rfl)
  exact ⟨hslow, C1_amended_slow_idle_scale (getDifficultyProfile c1S) c1S hslow hc⟩

/-- C2 witness: the amended no-spawn-at-ceiling statement applied to the
concrete state c6S (one active target, ceiling 1). -/
theorem C2_amended_witness :
    (getDifficultyProfile c6S).concurrentMax ≤ (c6S.activeMoles.length : ℤ) ∧
      spawnMolesIfNeeded c6S = c6S := by
  have h : (getDifficultyProfile c6S).concurrentMax ≤ (c6S.activeMoles.length : ℤ) :=
    of_decide_eq_true (by with_unfolding_all rfl)
  exact ⟨h, C2_amended_cap_and_ceiling.2 c6S h⟩

/-- C3 witness: the amended threshold statement applied to the concrete
state c3S. -/
theorem C3_amended_witness :
    ¬ spawnCandidates c3S = [] ∧
      (spawnSingleMole (getDifficultyProfile c3S) c3S).2.nextSpawnAtMs =
        if (c3S.activeMoles.length : ℤ) < (getDifficultyProfile c3S).concurrentMin - 1
        then c3S.elapsedMs else c3S.nextSpawnAtMs := by
  have hc : ¬ spawnCandidates c3S = [] := of_decide_eq_true (by with_unfolding_all rfl)
  exact ⟨hc, C3_amended_reschedule_threshold (getDifficultyProfile c3S) c3S hc⟩

/-- C6 witness: the hazard-hit statement applied to the concrete state c6S
(combo 7, score 10). -/
theorem C6_witness :
    c6Mole.type = MoleType.bomb ∧ (registerHit c6S 0).score = max 0 (c6S.score - 3) ∧
      (registerHit c6S 0).timeRemainingMs = clamp (c6S.timeRemainingMs - 2000) 0 MAX_TIME_MS ∧
      (registerHit c6S 0).combo = 0 := by
  have h1 : c6S.activeMoles.findIdx? (fun a => a.id == 0) = Option.some 0 := by
    with_unfolding_all rfl
  have h2 : c6S.activeMoles.get? 0 = Option.some c6Mole := by with_unfolding_all rfl
  have h := C6_bomb_hit c6S 0 0 c6Mole h1 h2 (Or.inr rfl) rfl
  exact ⟨rfl, h.1, h.2.1, h.2.2⟩

/-- C7 witness: the common-hit statement applied to the concrete state c7S. -/
theorem C7_witness :
    (registerHit c7S 0).combo = c7S.combo + 1 ∧
      (registerHit c7S 0).score =
        max 0 (c7S.score + jsRound (1 * getComboMultiplier (c7S.combo + 1))) := by
  have h1 : c7S.activeMoles.findIdx? (fun a => a.id == 0) = Option.some 0 := by
    with_unfolding_all rfl
  have h2 : c7S.activeMoles.get? 0 = Option.some (c7Mole 0) := by with_unfolding_all rfl
  exact (C7_combo_multiplier c7S 0 0 (c7Mole 0) h1 h2 (Or.inr rfl) rfl).1

/-- C9 witness: the no-op statement applied to the concrete state c9S whose
only target is retreating. -/
theorem C9_witness : registerHit c9S 0 = c9S := by
  have h1 : c9S.activeMoles.findIdx? (fun a => a.id == 0) = Option.some 0 := by
    with_unfolding_all rfl
  have h2 : c9S.activeMoles.get? 0 = Option.some c9Mole := by with_unfolding_all rfl
  refine C9_invalid_phase_hit_noop c9S 0 0 c9Mole h1 h2 ?_
  intro hc
  rcases hc with hc | hc <;> exact absurd hc (by decide)

/-- C10 witness: the pending no-decrease statement applied to the concrete
pending state c10S with an 80ms tick. -/
theorem C10_witness :
    c10S.promotionState = PromotionState.pending ∧
      c10S.timeRemainingMs ≤ (update c10S 80).timeRemainingMs := by
  have hlock : c10S.stageTransitionLockMs ≤ 0 := of_decide_eq_true (by with_unfolding_all rfl)
  have hp : c10S.promotionState = PromotionState.pending := rfl
  have hmax : c10S.timeRemainingMs ≤ MAX_TIME_MS := of_decide_eq_true (by with_unfolding_all rfl)
  have hd : c10S.promotionElapsedMs + 80 < getPendingDurationMs c10S :=
    of_decide_eq_true (by with_unfolding_all rfl)
  exact ⟨hp, (C10_pending_suspends_time_decay c10S 80 hlock).1 hp hmax hd⟩

end DTG
